import Mathlib

/-!
The defaults subsystem of dbdeployer (`defaults/defaults.go`).

A shallow embedding of the configuration record, its validation, the lazily
filled process-wide cache, and the update / load protocol, followed by the
properties proved about them.

Conventions of the embedding:

* Go `int` values are `Int`; no arithmetic is performed on them, only
  comparisons, so no wrap-around can occur. `strconv.Atoi` keeps the 64-bit
  range check.
* Standard output is a list of printed chunks, one per `fmt.Print*` call.
* `os.Exit(1)` is the `Outcome.exit` result, carrying the state at that point.
* Only the file at `ConfigurationFile` matters; its content is `Option String`
  (`none`: the file does not exist). Directory creation, reading and writing
  are assumed to succeed.
* The package `common` (version utility, compatible-version constant) and the
  JSON codec of the standard library are parameters, gathered in `Env`.
-/

namespace Dbdeployer

/-- The record `DbdeployerDefaults` (defaults.go, lines 28-52). -/
structure DbdeployerDefaults where
  Version : String
  SandboxHome : String
  SandboxBinary : String
  MasterSlaveBasePort : Int
  GroupReplicationBasePort : Int
  GroupReplicationSpBasePort : Int
  FanInReplicationBasePort : Int
  AllMastersReplicationBasePort : Int
  MultipleBasePort : Int
  GroupPortDelta : Int
  SandboxPrefix : String
  MasterSlavePrefix : String
  GroupPrefix : String
  GroupSpPrefix : String
  MultiplePrefix : String
  FanInPrefix : String
  AllMastersPrefix : String
deriving DecidableEq, Repr

/-- The zero value of the record: what the package variable `currentDefaults`
holds before anything is stored in it. -/
def zeroDefaults : DbdeployerDefaults :=
  { Version := "", SandboxHome := "", SandboxBinary := "",
    MasterSlaveBasePort := 0, GroupReplicationBasePort := 0,
    GroupReplicationSpBasePort := 0, FanInReplicationBasePort := 0,
    AllMastersReplicationBasePort := 0, MultipleBasePort := 0,
    GroupPortDelta := 0, SandboxPrefix := "", MasterSlavePrefix := "",
    GroupPrefix := "", GroupSpPrefix := "", MultiplePrefix := "",
    FanInPrefix := "", AllMastersPrefix := "" }

/-- What the code takes from outside the file: the environment variable
`HOME`, the package `common` and the JSON codec. -/
structure Env where
  /-- The value of `os.Getenv("HOME")`. -/
  home_dir : String
  /-- The constant `common.CompatibleVersion`. -/
  CompatibleVersion : String
  /-- The function `common.VersionToList`. -/
  VersionToList : String → List Int
  /-- The function `common.GreaterOrEqualVersion`. -/
  GreaterOrEqualVersion : String → List Int → Bool
  /-- The call `json.MarshalIndent(defaults, " ", "\t")`; it cannot fail on a
  record of strings and integers. -/
  MarshalIndent : DbdeployerDefaults → String
  /-- The call `json.Unmarshal(blob, &defaults)` on a zero record: the decoded
  record, or the text of the error. -/
  Unmarshal : String → Except String DbdeployerDefaults

def min_port_value : Int := 11000

def max_port_value : Int := 30000

def LineLength : Nat := 80

def ConfigurationDir (env : Env) : String := env.home_dir ++ "/.dbdeployer"

def ConfigurationFile (env : Env) : String := ConfigurationDir env ++ "/config.json"

def StarLine : String := String.mk (List.replicate LineLength '*')

/-- The package variable `factoryDefaults` (lines 71-95). -/
def factoryDefaults (env : Env) : DbdeployerDefaults :=
  { Version := env.CompatibleVersion
    SandboxHome := env.home_dir ++ "/sandboxes"
    SandboxBinary := env.home_dir ++ "/opt/mysql"
    MasterSlaveBasePort := 11000
    GroupReplicationBasePort := 12000
    GroupReplicationSpBasePort := 13000
    FanInReplicationBasePort := 14000
    AllMastersReplicationBasePort := 15000
    MultipleBasePort := 16000
    GroupPortDelta := 125
    SandboxPrefix := "msb_"
    MasterSlavePrefix := "rsandbox_"
    GroupPrefix := "group_msb_"
    GroupSpPrefix := "group_sp_msb_"
    MultiplePrefix := "multi_msb_"
    FanInPrefix := "fan_in_msb_"
    AllMastersPrefix := "all_masters_msb_" }

/-- The process state the package works on. -/
structure State where
  /-- The package variable `currentDefaults`. -/
  currentDefaults : DbdeployerDefaults
  /-- The content of the file at `ConfigurationFile`, if it exists. -/
  file : Option String
  /-- Everything printed so far. -/
  stdout : List String
deriving DecidableEq

/-- The state a process starts in: nothing cached, nothing printed. -/
def initState (file : Option String) : State :=
  { currentDefaults := zeroDefaults, file := file, stdout := [] }

/-- The result of a call: it returns a value, or the process ends through
`os.Exit(1)`. Both carry the state reached. -/
inductive Outcome (α : Type) where
  | ret (val : α) (st : State)
  | exit (st : State)
deriving DecidableEq

/-- The state an outcome ends in. -/
def Outcome.state {α : Type} : Outcome α → State
  | .ret _ st => st
  | .exit st => st

/-- The value an outcome returns, if it returns. -/
def Outcome.value? {α : Type} : Outcome α → Option α
  | .ret val _ => some val
  | .exit _ => none

/-- Whether the process was terminated. -/
def Outcome.isExit {α : Type} : Outcome α → Bool
  | .ret _ _ => false
  | .exit _ => true

/-- One `fmt.Print*` call. -/
def print (s : State) (chunk : String) : State :=
  { s with stdout := s.stdout ++ [chunk] }

/-- Several `fmt.Print*` calls in a row. -/
def printAll (s : State) (chunks : List String) : State :=
  { s with stdout := s.stdout ++ chunks }

/-- The call `common.FileExists(ConfigurationFile)`. -/
def FileExists (s : State) : Bool := s.file.isSome

/-- The output of `ShowDefaults` (lines 112-124); `fileExists` is the answer of
`common.FileExists(ConfigurationFile)`. -/
def ShowDefaults (env : Env) (fileExists : Bool) (defaults : DbdeployerDefaults) :
    List String :=
  (if fileExists then "# Configuration file: " ++ ConfigurationFile env ++ "\n"
   else "# Internal values:\n")
  :: [env.MarshalIndent defaults ++ "\n"]

/-- The function `WriteDefaultsFile` (lines 126-138), for `ConfigurationFile`. -/
def WriteDefaultsFile (env : Env) (defaults : DbdeployerDefaults) (s : State) : State :=
  { s with file := some (env.MarshalIndent defaults) }

/-- The function `ReadDefaultsFile` (lines 140-149), for `ConfigurationFile`.
Slurping a file that does not exist is fatal. -/
def ReadDefaultsFile (env : Env) (s : State) : Outcome DbdeployerDefaults :=
  match s.file with
  | none => .exit s
  | some blob =>
    match env.Unmarshal blob with
    | .ok defaults => .ret defaults s
    | .error err => .exit (print s ("error decoding defaults:  " ++ err ++ "\n"))

/-- The function `Defaults` (lines 101-110). -/
def Defaults (env : Env) (s : State) : Outcome DbdeployerDefaults :=
  if s.currentDefaults.Version = "" then
    if FileExists s then
      match ReadDefaultsFile env s with
      | .ret d s1 => .ret d { s1 with currentDefaults := d }
      | .exit s1 => .exit s1
    else
      .ret (factoryDefaults env) { s with currentDefaults := factoryDefaults env }
  else
    .ret s.currentDefaults s

/-- The function `check_int` (lines 151-157): the answer and what it prints. -/
def check_int (name : String) (val min max : Int) : Bool × List String :=
  if val ≥ min ∧ val ≤ max then (true, [])
  else (false, ["Value " ++ name ++ " (" ++ toString val ++ ") must be between "
                  ++ toString min ++ " and " ++ toString max ++ "\n"])

/-- The short-circuit `&&` of two printing checks: the second one runs, and
prints, only when the first one answered true. -/
def andAlso (a b : Bool × List String) : Bool × List String :=
  if a.1 then (b.1, a.2 ++ b.2) else (false, a.2)

/-- The first stage of `ValidateDefaults` (lines 161-170): the variable
`all_ints` and what computing it prints. -/
def all_ints (nd : DbdeployerDefaults) : Bool × List String :=
  andAlso (andAlso (andAlso (andAlso (andAlso (andAlso
    (check_int "master-slave-base-port" nd.MasterSlaveBasePort min_port_value max_port_value)
    (check_int "group-replication-base-port" nd.GroupReplicationBasePort min_port_value max_port_value))
    (check_int "group-replication-sp-base-port" nd.GroupReplicationSpBasePort min_port_value max_port_value))
    (check_int "multiple-base-port" nd.MultipleBasePort min_port_value max_port_value))
    (check_int "fan-in-base-port" nd.FanInReplicationBasePort min_port_value max_port_value))
    (check_int "all-masters-base-port" nd.AllMastersReplicationBasePort min_port_value max_port_value))
    (check_int "group-port-delta" nd.GroupPortDelta 101 299)

/-- The variable `no_conflicts` of `ValidateDefaults` (lines 175-192). -/
def no_conflicts (nd : DbdeployerDefaults) : Bool :=
  decide (nd.MultipleBasePort ≠ nd.GroupReplicationSpBasePort) &&
  decide (nd.MultipleBasePort ≠ nd.GroupReplicationBasePort) &&
  decide (nd.MultipleBasePort ≠ nd.MasterSlaveBasePort) &&
  decide (nd.MultipleBasePort ≠ nd.FanInReplicationBasePort) &&
  decide (nd.MultipleBasePort ≠ nd.AllMastersReplicationBasePort) &&
  decide (nd.MultiplePrefix ≠ nd.GroupSpPrefix) &&
  decide (nd.MultiplePrefix ≠ nd.GroupPrefix) &&
  decide (nd.MultiplePrefix ≠ nd.MasterSlavePrefix) &&
  decide (nd.MultiplePrefix ≠ nd.SandboxPrefix) &&
  decide (nd.MultiplePrefix ≠ nd.FanInPrefix) &&
  decide (nd.MultiplePrefix ≠ nd.AllMastersPrefix) &&
  decide (nd.SandboxHome ≠ nd.SandboxBinary)

/-- The variable `all_strings` of `ValidateDefaults` (lines 198-204). -/
def all_strings (nd : DbdeployerDefaults) : Bool :=
  decide (nd.SandboxPrefix ≠ "") &&
  decide (nd.MasterSlavePrefix ≠ "") &&
  decide (nd.GroupPrefix ≠ "") &&
  decide (nd.GroupSpPrefix ≠ "") &&
  decide (nd.MultiplePrefix ≠ "") &&
  decide (nd.SandboxHome ≠ "") &&
  decide (nd.SandboxBinary ≠ "")

/-- The version test of `ValidateDefaults` (lines 210-211). -/
def versionOk (env : Env) (version : String) : Bool :=
  env.GreaterOrEqualVersion version (env.VersionToList env.CompatibleVersion)

/-- The function `ValidateDefaults` (lines 159-216): the answer and what it
prints; `fileExists` is what `ShowDefaults` gets from `common.FileExists`. -/
def ValidateDefaults (env : Env) (fileExists : Bool) (nd : DbdeployerDefaults) :
    Bool × List String :=
  let ints := all_ints nd
  if !ints.1 then (false, ints.2)
  else if !no_conflicts nd then
    (false, ints.2 ++ "Conflicts found in defaults values:\n" :: ShowDefaults env fileExists nd)
  else if !all_strings nd then
    (false, ints.2 ++ "One or more empty values found in defaults\n"
              :: ShowDefaults env fileExists nd)
  else if !versionOk env nd.Version then
    (false, ints.2 ++ ["Provided defaults are for version " ++ nd.Version
              ++ ". Current version is " ++ env.CompatibleVersion ++ "\n"])
  else (true, ints.2)

/-- The answer of `ValidateDefaults`, which no state influences. -/
def valid (env : Env) (nd : DbdeployerDefaults) : Bool :=
  (ValidateDefaults env false nd).1

/-- The function `strconv.Atoi` of the standard library: an optional sign, then
one or more decimal digits, the value within the 64-bit range of `int`. -/
def Atoi (val : String) : Option Int :=
  let digits : List Char :=
    match val.toList with
    | '-' :: rest => rest
    | '+' :: rest => rest
    | cs => cs
  let negative : Bool :=
    match val.toList with
    | '-' :: _ => true
    | _ => false
  if digits.isEmpty || !digits.all Char.isDigit then none
  else
    let n : Nat := digits.foldl (fun acc c => 10 * acc + (c.toNat - 48)) 0
    let v : Int := if negative then -(n : Int) else (n : Int)
    if -(2 : Int) ^ 63 ≤ v ∧ v < (2 : Int) ^ 63 then some v else none

/-- The function `a_to_i` (lines 232-239). -/
def a_to_i (val : String) (s : State) : Outcome Int :=
  match Atoi val with
  | some numvalue => .ret numvalue s
  | none => .exit (print s ("Not a valid number: " ++ val ++ "\n"))

/-- The assignment of a numeric field in the `switch` of `UpdateDefaults`:
`a_to_i(value)` runs first and may end the process. -/
def setInt (value : String) (s : State) (assign : Int → DbdeployerDefaults) :
    Outcome DbdeployerDefaults :=
  match a_to_i value s with
  | .ret n s1 => .ret (assign n) s1
  | .exit s1 => .exit s1

/-- The `switch` statement of `UpdateDefaults` (lines 243-293), applied to the
copy `new_defaults`. -/
def switchLabel (label value : String) (new_defaults : DbdeployerDefaults) (s : State) :
    Outcome DbdeployerDefaults :=
  match label with
  | "version" => .ret { new_defaults with Version := value } s
  | "sandbox-home" => .ret { new_defaults with SandboxHome := value } s
  | "sandbox-binary" => .ret { new_defaults with SandboxBinary := value } s
  | "master-slave-base-port" =>
    setInt value s (fun n => { new_defaults with MasterSlaveBasePort := n })
  | "group-replication-base-port" =>
    setInt value s (fun n => { new_defaults with GroupReplicationBasePort := n })
  | "group-replication-sp-base-port" =>
    setInt value s (fun n => { new_defaults with GroupReplicationSpBasePort := n })
  | "multiple-base-port" =>
    setInt value s (fun n => { new_defaults with MultipleBasePort := n })
  | "fan-in-base-port" =>
    setInt value s (fun n => { new_defaults with FanInReplicationBasePort := n })
  | "all-masters-base-port" =>
    setInt value s (fun n => { new_defaults with AllMastersReplicationBasePort := n })
  | "group-port-delta" =>
    setInt value s (fun n => { new_defaults with GroupPortDelta := n })
  | "sandbox-prefix" => .ret { new_defaults with SandboxPrefix := value } s
  | "master-slave-prefix" => .ret { new_defaults with MasterSlavePrefix := value } s
  | "group-prefix" => .ret { new_defaults with GroupPrefix := value } s
  | "group-sp-prefix" => .ret { new_defaults with GroupSpPrefix := value } s
  | "multiple-prefix" => .ret { new_defaults with MultiplePrefix := value } s
  | "fan-in-prefix" => .ret { new_defaults with FanInPrefix := value } s
  | "all-masters-prefix" => .ret { new_defaults with AllMastersPrefix := value } s
  | _ => .exit (print s ("Unrecognized label " ++ label ++ "\n"))

/-- The tail of `UpdateDefaults` (lines 294-298): validate the candidate,
commit and persist it when it is valid, print the confirmation line. -/
def commitDefaults (env : Env) (label value : String) (new_defaults : DbdeployerDefaults)
    (s : State) : Outcome Unit :=
  let v := ValidateDefaults env (FileExists s) new_defaults
  let s1 := printAll s v.2
  let confirmation := "# Updated " ++ label ++ " -> \"" ++ value ++ "\"\n"
  if v.1 then
    match Defaults env { s1 with currentDefaults := new_defaults } with
    | .ret d s2 => .ret () (print (WriteDefaultsFile env d s2) confirmation)
    | .exit s2 => .exit s2
  else
    .ret () (print s1 confirmation)

/-- The function `UpdateDefaults` (lines 241-299). -/
def UpdateDefaults (env : Env) (label value : String) (s : State) : Outcome Unit :=
  match Defaults env s with
  | .exit s1 => .exit s1
  | .ret new_defaults s1 =>
    match switchLabel label value new_defaults s1 with
    | .exit s2 => .exit s2
    | .ret new_defaults s2 => commitDefaults env label value new_defaults s2

/-- The function `LoadConfiguration` (lines 301-317); the one-second sleep has
no effect on the state. -/
def LoadConfiguration (env : Env) (s : State) : Outcome Unit :=
  if !FileExists s then .ret () s
  else
    match ReadDefaultsFile env s with
    | .exit s1 => .exit s1
    | .ret new_defaults s1 =>
      let v := ValidateDefaults env (FileExists s1) new_defaults
      let s2 := printAll s1 v.2
      if v.1 then .ret () { s2 with currentDefaults := new_defaults }
      else
        .ret () (printAll s2
          [StarLine ++ "\n",
           "Defaults file " ++ ConfigurationFile env ++ " not validated.\n",
           "Loading internal defaults\n",
           StarLine ++ "\n",
           "\n"])

/-- The labels the `switch` of `UpdateDefaults` has a case for. -/
def recognizedLabels : List String :=
  ["version", "sandbox-home", "sandbox-binary", "master-slave-base-port",
   "group-replication-base-port", "group-replication-sp-base-port",
   "multiple-base-port", "fan-in-base-port", "all-masters-base-port",
   "group-port-delta", "sandbox-prefix", "master-slave-prefix", "group-prefix",
   "group-sp-prefix", "multiple-prefix", "fan-in-prefix", "all-masters-prefix"]

/-- The labels whose case calls `a_to_i`. -/
def numericLabels : List String :=
  ["master-slave-base-port", "group-replication-base-port",
   "group-replication-sp-base-port", "multiple-base-port", "fan-in-base-port",
   "all-masters-base-port", "group-port-delta"]

/-! ## Fields, to speak of what an update leaves alone -/

/-- The seventeen fields of the record. -/
inductive Field where
  | Version
  | SandboxHome
  | SandboxBinary
  | MasterSlaveBasePort
  | GroupReplicationBasePort
  | GroupReplicationSpBasePort
  | FanInReplicationBasePort
  | AllMastersReplicationBasePort
  | MultipleBasePort
  | GroupPortDelta
  | SandboxPrefix
  | MasterSlavePrefix
  | GroupPrefix
  | GroupSpPrefix
  | MultiplePrefix
  | FanInPrefix
  | AllMastersPrefix
deriving DecidableEq, Repr

/-- The content of a field: a text or a number. -/
inductive FieldValue where
  | text (s : String)
  | number (n : Int)
deriving DecidableEq, Repr

/-- The content of a field of a record. -/
def DbdeployerDefaults.get (d : DbdeployerDefaults) : Field → FieldValue
  | .Version => .text d.Version
  | .SandboxHome => .text d.SandboxHome
  | .SandboxBinary => .text d.SandboxBinary
  | .MasterSlaveBasePort => .number d.MasterSlaveBasePort
  | .GroupReplicationBasePort => .number d.GroupReplicationBasePort
  | .GroupReplicationSpBasePort => .number d.GroupReplicationSpBasePort
  | .FanInReplicationBasePort => .number d.FanInReplicationBasePort
  | .AllMastersReplicationBasePort => .number d.AllMastersReplicationBasePort
  | .MultipleBasePort => .number d.MultipleBasePort
  | .GroupPortDelta => .number d.GroupPortDelta
  | .SandboxPrefix => .text d.SandboxPrefix
  | .MasterSlavePrefix => .text d.MasterSlavePrefix
  | .GroupPrefix => .text d.GroupPrefix
  | .GroupSpPrefix => .text d.GroupSpPrefix
  | .MultiplePrefix => .text d.MultiplePrefix
  | .FanInPrefix => .text d.FanInPrefix
  | .AllMastersPrefix => .text d.AllMastersPrefix

/-- The field each case of the `switch` of `UpdateDefaults` assigns. -/
def labelField (label : String) : Option Field :=
  match label with
  | "version" => some .Version
  | "sandbox-home" => some .SandboxHome
  | "sandbox-binary" => some .SandboxBinary
  | "master-slave-base-port" => some .MasterSlaveBasePort
  | "group-replication-base-port" => some .GroupReplicationBasePort
  | "group-replication-sp-base-port" => some .GroupReplicationSpBasePort
  | "multiple-base-port" => some .MultipleBasePort
  | "fan-in-base-port" => some .FanInReplicationBasePort
  | "all-masters-base-port" => some .AllMastersReplicationBasePort
  | "group-port-delta" => some .GroupPortDelta
  | "sandbox-prefix" => some .SandboxPrefix
  | "master-slave-prefix" => some .MasterSlavePrefix
  | "group-prefix" => some .GroupPrefix
  | "group-sp-prefix" => some .GroupSpPrefix
  | "multiple-prefix" => some .MultiplePrefix
  | "fan-in-prefix" => some .FanInPrefix
  | "all-masters-prefix" => some .AllMastersPrefix
  | _ => none

/-- What the `switch` stores in a field for the text `value`: the text itself,
or for a numeric field the number `strconv.Atoi` reads in it. -/
def parseFor (f : Field) (value : String) : Option FieldValue :=
  match f with
  | .MasterSlaveBasePort => (Atoi value).map .number
  | .GroupReplicationBasePort => (Atoi value).map .number
  | .GroupReplicationSpBasePort => (Atoi value).map .number
  | .FanInReplicationBasePort => (Atoi value).map .number
  | .AllMastersReplicationBasePort => (Atoi value).map .number
  | .MultipleBasePort => (Atoi value).map .number
  | .GroupPortDelta => (Atoi value).map .number
  | _ => some (.text value)

/-! ## Predicates used in the statements -/

/-- The record passes the range stage: the six base ports lie in
`[11000, 30000]` and the delta in `[101, 299]`. -/
def InRange (nd : DbdeployerDefaults) : Prop :=
  (11000 ≤ nd.MasterSlaveBasePort ∧ nd.MasterSlaveBasePort ≤ 30000) ∧
  (11000 ≤ nd.GroupReplicationBasePort ∧ nd.GroupReplicationBasePort ≤ 30000) ∧
  (11000 ≤ nd.GroupReplicationSpBasePort ∧ nd.GroupReplicationSpBasePort ≤ 30000) ∧
  (11000 ≤ nd.MultipleBasePort ∧ nd.MultipleBasePort ≤ 30000) ∧
  (11000 ≤ nd.FanInReplicationBasePort ∧ nd.FanInReplicationBasePort ≤ 30000) ∧
  (11000 ≤ nd.AllMastersReplicationBasePort ∧ nd.AllMastersReplicationBasePort ≤ 30000) ∧
  (101 ≤ nd.GroupPortDelta ∧ nd.GroupPortDelta ≤ 299)

/-- The record passes the conflict stage. -/
def NoConflicts (nd : DbdeployerDefaults) : Prop :=
  (nd.MultipleBasePort ≠ nd.GroupReplicationSpBasePort ∧
   nd.MultipleBasePort ≠ nd.GroupReplicationBasePort ∧
   nd.MultipleBasePort ≠ nd.MasterSlaveBasePort ∧
   nd.MultipleBasePort ≠ nd.FanInReplicationBasePort ∧
   nd.MultipleBasePort ≠ nd.AllMastersReplicationBasePort) ∧
  (nd.MultiplePrefix ≠ nd.GroupSpPrefix ∧
   nd.MultiplePrefix ≠ nd.GroupPrefix ∧
   nd.MultiplePrefix ≠ nd.MasterSlavePrefix ∧
   nd.MultiplePrefix ≠ nd.SandboxPrefix ∧
   nd.MultiplePrefix ≠ nd.FanInPrefix ∧
   nd.MultiplePrefix ≠ nd.AllMastersPrefix) ∧
  nd.SandboxHome ≠ nd.SandboxBinary

/-- The record passes the non-emptiness stage. -/
def AllStrings (nd : DbdeployerDefaults) : Prop :=
  nd.SandboxPrefix ≠ "" ∧ nd.MasterSlavePrefix ≠ "" ∧ nd.GroupPrefix ≠ "" ∧
  nd.GroupSpPrefix ≠ "" ∧ nd.MultiplePrefix ≠ "" ∧ nd.SandboxHome ≠ "" ∧
  nd.SandboxBinary ≠ ""

/-- One call of `check_int` in `ValidateDefaults`: the name it prints, the
value it tests and the bounds. -/
structure RangeCheck where
  name : String
  val : Int
  min : Int
  max : Int
deriving DecidableEq, Repr

/-- Whether the value of a check lies within its bounds. -/
def RangeCheck.inRange (c : RangeCheck) : Bool := decide (c.min ≤ c.val ∧ c.val ≤ c.max)

/-- The line `check_int` prints for a check that fails. -/
def RangeCheck.message (c : RangeCheck) : String :=
  "Value " ++ c.name ++ " (" ++ toString c.val ++ ") must be between "
    ++ toString c.min ++ " and " ++ toString c.max ++ "\n"

/-- The seven calls of `check_int` in `ValidateDefaults`, in the order of the
source (lines 161-170). -/
def rangeChecks (nd : DbdeployerDefaults) : List RangeCheck :=
  [⟨"master-slave-base-port", nd.MasterSlaveBasePort, min_port_value, max_port_value⟩,
   ⟨"group-replication-base-port", nd.GroupReplicationBasePort, min_port_value, max_port_value⟩,
   ⟨"group-replication-sp-base-port", nd.GroupReplicationSpBasePort, min_port_value,
     max_port_value⟩,
   ⟨"multiple-base-port", nd.MultipleBasePort, min_port_value, max_port_value⟩,
   ⟨"fan-in-base-port", nd.FanInReplicationBasePort, min_port_value, max_port_value⟩,
   ⟨"all-masters-base-port", nd.AllMastersReplicationBasePort, min_port_value, max_port_value⟩,
   ⟨"group-port-delta", nd.GroupPortDelta, 101, 299⟩]

/-! ## Keys, labels and repeated updates -/

/-- The JSON key of each field: the tag of the field in the declaration of
`DbdeployerDefaults` (lines 29-48). -/
def jsonKey : Field → String
  | .Version => "version"
  | .SandboxHome => "sandbox-home"
  | .SandboxBinary => "sandbox-binary"
  | .MasterSlaveBasePort => "master-slave-base-port"
  | .GroupReplicationBasePort => "group-replication-base-port"
  | .GroupReplicationSpBasePort => "group-replication-sp-base-port"
  | .FanInReplicationBasePort => "fan-in-replication-base-port"
  | .AllMastersReplicationBasePort => "all-masters-replication-base-port"
  | .MultipleBasePort => "multiple-base-port"
  | .GroupPortDelta => "group-port-delta"
  | .SandboxPrefix => "sandbox-prefix"
  | .MasterSlavePrefix => "master-slave-prefix"
  | .GroupPrefix => "group-prefix"
  | .GroupSpPrefix => "group-sp-prefix"
  | .MultiplePrefix => "multiple-prefix"
  | .FanInPrefix => "fan-in-prefix"
  | .AllMastersPrefix => "all-masters-prefix"

/-- The label under which each field is updated: its JSON key, except that the
two base ports `FanInReplicationBasePort` and `AllMastersReplicationBasePort`
go by `fan-in-base-port` and `all-masters-base-port`. -/
def updateLabel : Field → String
  | .FanInReplicationBasePort => "fan-in-base-port"
  | .AllMastersReplicationBasePort => "all-masters-base-port"
  | f => jsonKey f

/-- The six base-port fields. -/
def basePortFields : List Field :=
  [.MasterSlaveBasePort, .GroupReplicationBasePort, .GroupReplicationSpBasePort,
   .FanInReplicationBasePort, .AllMastersReplicationBasePort, .MultipleBasePort]

/-- Whether a field of a record holds a number outside `[11000, 30000]`. -/
def portOutOfRange (d : DbdeployerDefaults) (f : Field) : Bool :=
  match d.get f with
  | .number n => decide (n < min_port_value ∨ max_port_value < n)
  | .text _ => false

/-- The confirmation line of `UpdateDefaults` (line 298). -/
def confirmationLine (label value : String) : String :=
  "# Updated " ++ label ++ " -> \"" ++ value ++ "\"\n"

/-- Two calls of `UpdateDefaults` in a row with the same arguments; when the
first one ends the process there is no second one. -/
def UpdateDefaultsTwice (env : Env) (label value : String) (s : State) : Outcome Unit :=
  match UpdateDefaults env label value s with
  | .ret _ s1 => UpdateDefaults env label value s1
  | .exit s1 => .exit s1

/-! ## A sample environment

Used to run the definitions on concrete inputs. -/

/-- The decimal value of a run of digits, if it is one. -/
def digitsValue : List Char → Option Nat
  | [] => none
  | cs => if cs.all Char.isDigit then
      some (cs.foldl (fun acc c => 10 * acc + (c.toNat - 48)) 0) else none

/-- The pieces of a text between its dots. -/
def splitDots : List Char → List (List Char)
  | [] => [[]]
  | c :: cs =>
    match splitDots cs with
    | [] => [[c]]
    | piece :: pieces => if c = '.' then [] :: piece :: pieces else (c :: piece) :: pieces

/-- A version utility for the sample environment: three dotted numbers give
their list, anything else gives `[-1]`. -/
def sampleVersionToList (version : String) : List Int :=
  match (splitDots version.toList).map digitsValue with
  | [some major, some minor, some rev] => [(major : Int), (minor : Int), (rev : Int)]
  | _ => [-1]

/-- A version comparison for the sample environment: numeric, component by
component; a version that is not three dotted numbers is rejected. -/
def sampleGreaterOrEqualVersion (version : String) (compared_to : List Int) : Bool :=
  match sampleVersionToList version, compared_to with
  | [major, minor, rev], [cmajor, cminor, crev] =>
    decide (major > cmajor) ||
    (decide (major = cmajor) && (decide (minor > cminor) ||
      (decide (minor = cminor) && decide (rev ≥ crev))))
  | _, _ => false

/-- One `"key": "text"` member, as `json.MarshalIndent` lays it out for a text
that needs no escaping. -/
def memberString (key value : String) : String :=
  " \t\"" ++ key ++ "\": \"" ++ value ++ "\""

/-- One `"key": number` member. -/
def memberInt (key : String) (value : Int) : String :=
  " \t\"" ++ key ++ "\": " ++ toString value

/-- The indented JSON text of a record whose strings need no escaping. -/
def sampleMarshalIndent (d : DbdeployerDefaults) : String :=
  "\x7b\n" ++ String.intercalate ",\n"
    [memberString "version" d.Version,
     memberString "sandbox-home" d.SandboxHome,
     memberString "sandbox-binary" d.SandboxBinary,
     memberInt "master-slave-base-port" d.MasterSlaveBasePort,
     memberInt "group-replication-base-port" d.GroupReplicationBasePort,
     memberInt "group-replication-sp-base-port" d.GroupReplicationSpBasePort,
     memberInt "fan-in-replication-base-port" d.FanInReplicationBasePort,
     memberInt "all-masters-replication-base-port" d.AllMastersReplicationBasePort,
     memberInt "multiple-base-port" d.MultipleBasePort,
     memberInt "group-port-delta" d.GroupPortDelta,
     memberString "sandbox-prefix" d.SandboxPrefix,
     memberString "master-slave-prefix" d.MasterSlavePrefix,
     memberString "group-prefix" d.GroupPrefix,
     memberString "group-sp-prefix" d.GroupSpPrefix,
     memberString "multiple-prefix" d.MultiplePrefix,
     memberString "fan-in-prefix" d.FanInPrefix,
     memberString "all-masters-prefix" d.AllMastersPrefix]
    ++ "\n \x7d"

/-- The factory record of a process whose `HOME` is `/home/user` and whose
compatible version is `1.5.0`. -/
def sampleFactory : DbdeployerDefaults :=
  { Version := "1.5.0"
    SandboxHome := "/home/user/sandboxes"
    SandboxBinary := "/home/user/opt/mysql"
    MasterSlaveBasePort := 11000
    GroupReplicationBasePort := 12000
    GroupReplicationSpBasePort := 13000
    FanInReplicationBasePort := 14000
    AllMastersReplicationBasePort := 15000
    MultipleBasePort := 16000
    GroupPortDelta := 125
    SandboxPrefix := "msb_"
    MasterSlavePrefix := "rsandbox_"
    GroupPrefix := "group_msb_"
    GroupSpPrefix := "group_sp_msb_"
    MultiplePrefix := "multi_msb_"
    FanInPrefix := "fan_in_msb_"
    AllMastersPrefix := "all_masters_msb_" }

/-- The factory record written by an older release: its version is below the
compatible one. -/
def oldVersionRecord : DbdeployerDefaults := { sampleFactory with Version := "1.0.0" }

/-- A record in which two base ports are equal, neither being
`MultipleBasePort`. -/
def sharedPortRecord : DbdeployerDefaults :=
  { sampleFactory with GroupReplicationBasePort := 11000 }

/-- A record whose `FanInPrefix` and `AllMastersPrefix` are empty. -/
def emptyPrefixRecord : DbdeployerDefaults :=
  { sampleFactory with FanInPrefix := "", AllMastersPrefix := "" }

/-- A record with two base ports below the lower bound. -/
def twoLowPortsRecord : DbdeployerDefaults :=
  { sampleFactory with MasterSlaveBasePort := 5, GroupReplicationBasePort := 7 }

/-- A record whose six base ports are all 12000. -/
def samePortsRecord : DbdeployerDefaults :=
  { sampleFactory with
    MasterSlaveBasePort := 12000, GroupReplicationBasePort := 12000,
    GroupReplicationSpBasePort := 12000, FanInReplicationBasePort := 12000,
    AllMastersReplicationBasePort := 12000, MultipleBasePort := 12000 }

/-- A record whose two paths are both empty. -/
def emptyPathsRecord : DbdeployerDefaults :=
  { sampleFactory with SandboxHome := "", SandboxBinary := "" }

/-- A process that has the sample factory record in its cache and no file. -/
def sampleState : State := { currentDefaults := sampleFactory, file := none, stdout := [] }

/-- The text of the empty JSON object, an opening and a closing brace. -/
def emptyObject : String := "\x7b\x7d"

/-- The file texts the sample decoder knows, each with the record
`json.Unmarshal` makes of it: three of the records above as `json.MarshalIndent`
writes them, and the empty object, all of whose keys are missing. -/
def sampleFiles : List (String × DbdeployerDefaults) :=
  [(sampleMarshalIndent sampleFactory, sampleFactory),
   (sampleMarshalIndent oldVersionRecord, oldVersionRecord),
   (sampleMarshalIndent twoLowPortsRecord, twoLowPortsRecord),
   (emptyObject, zeroDefaults)]

/-- A decoder for the sample environment: it decodes the texts of `sampleFiles`
and reports an error on any other text. -/
def sampleUnmarshal (blob : String) : Except String DbdeployerDefaults :=
  match sampleFiles.lookup blob with
  | some d => .ok d
  | none => .error "invalid character"

/-- A process start with the file of an older release on disk. -/
def oldFileState : State := initState (some (sampleMarshalIndent oldVersionRecord))

/-- A process start with a file on disk whose first two base ports are below
the lower bound. -/
def lowPortsFileState : State := initState (some (sampleMarshalIndent twoLowPortsRecord))

/-- A process start with a file on disk that is not JSON. -/
def corruptFileState : State := initState (some "not json")

/-- A process that has read the file with the two low base ports into its
cache. -/
def lowPortsLoadedState : State :=
  { currentDefaults := twoLowPortsRecord,
    file := some (sampleMarshalIndent twoLowPortsRecord), stdout := [] }

/-- The sample environment. -/
def sampleEnv : Env :=
  { home_dir := "/home/user"
    CompatibleVersion := "1.5.0"
    VersionToList := sampleVersionToList
    GreaterOrEqualVersion := sampleGreaterOrEqualVersion
    MarshalIndent := sampleMarshalIndent
    Unmarshal := sampleUnmarshal }

/-- The sample environment with a version utility that accepts every version,
the empty one included. -/
def lenientEnv : Env := { sampleEnv with GreaterOrEqualVersion := fun _ _ => true }

/-- A process that has the sample factory record in its cache and on disk. -/
def savedState : State :=
  { currentDefaults := sampleFactory, file := some (sampleMarshalIndent sampleFactory),
    stdout := [] }

/-! ## The validator -/

theorem check_int_fst (name : String) (val min max : Int) :
    (check_int name val min max).1 = true ↔ min ≤ val ∧ val ≤ max := by
  unfold check_int
  by_cases h : val ≥ min ∧ val ≤ max
  · simp [h]
  · simp [h]

theorem andAlso_fst (a b : Bool × List String) :
    (andAlso a b).1 = true ↔ a.1 = true ∧ b.1 = true := by
  unfold andAlso
  cases h : a.1 <;> simp

theorem all_ints_fst (nd : DbdeployerDefaults) : (all_ints nd).1 = true ↔ InRange nd := by
  unfold all_ints InRange
  simp only [andAlso_fst, check_int_fst, min_port_value, max_port_value, and_assoc]

theorem no_conflicts_iff (nd : DbdeployerDefaults) : no_conflicts nd = true ↔ NoConflicts nd := by
  unfold no_conflicts NoConflicts
  simp only [Bool.and_eq_true, decide_eq_true_eq, and_assoc]

theorem all_strings_iff (nd : DbdeployerDefaults) : all_strings nd = true ↔ AllStrings nd := by
  unfold all_strings AllStrings
  simp only [Bool.and_eq_true, decide_eq_true_eq, and_assoc]

/-- The answer of `ValidateDefaults` is the conjunction of its four stages. -/
theorem ValidateDefaults_fst (env : Env) (fileExists : Bool) (nd : DbdeployerDefaults) :
    (ValidateDefaults env fileExists nd).1 =
      ((all_ints nd).1 && no_conflicts nd && all_strings nd && versionOk env nd.Version) := by
  unfold ValidateDefaults
  cases h1 : (all_ints nd).1 <;> cases h2 : no_conflicts nd <;> cases h3 : all_strings nd <;>
    cases h4 : versionOk env nd.Version <;> simp [h1, h2, h3, h4]

/-- The answer of `ValidateDefaults` does not depend on the file system. -/
theorem ValidateDefaults_fst_eq_valid (env : Env) (fileExists : Bool) (nd : DbdeployerDefaults) :
    (ValidateDefaults env fileExists nd).1 = valid env nd := by
  unfold valid
  rw [ValidateDefaults_fst, ValidateDefaults_fst]

theorem valid_iff (env : Env) (nd : DbdeployerDefaults) :
    valid env nd = true ↔
      InRange nd ∧ NoConflicts nd ∧ AllStrings nd ∧ versionOk env nd.Version = true := by
  unfold valid
  rw [ValidateDefaults_fst]
  simp only [Bool.and_eq_true, all_ints_fst, no_conflicts_iff, all_strings_iff, and_assoc]

/-- C1: `ValidateDefaults(nd)` returns true exactly when the four stages hold:
the six base ports lie in `[11000, 30000]` and the delta in `[101, 299]`;
`MultipleBasePort` differs from the five other base ports, `MultiplePrefix` from
the six other prefixes and `SandboxHome` from `SandboxBinary`; the five checked
prefixes and the two paths are non-empty; and the version utility accepts the
record's version against the compatible version. -/
theorem ValidateDefaults_true_iff (env : Env) (fileExists : Bool) (nd : DbdeployerDefaults) :
    (ValidateDefaults env fileExists nd).1 = true ↔
      ((11000 ≤ nd.MasterSlaveBasePort ∧ nd.MasterSlaveBasePort ≤ 30000) ∧
       (11000 ≤ nd.GroupReplicationBasePort ∧ nd.GroupReplicationBasePort ≤ 30000) ∧
       (11000 ≤ nd.GroupReplicationSpBasePort ∧ nd.GroupReplicationSpBasePort ≤ 30000) ∧
       (11000 ≤ nd.MultipleBasePort ∧ nd.MultipleBasePort ≤ 30000) ∧
       (11000 ≤ nd.FanInReplicationBasePort ∧ nd.FanInReplicationBasePort ≤ 30000) ∧
       (11000 ≤ nd.AllMastersReplicationBasePort ∧
          nd.AllMastersReplicationBasePort ≤ 30000) ∧
       (101 ≤ nd.GroupPortDelta ∧ nd.GroupPortDelta ≤ 299)) ∧
      ((nd.MultipleBasePort ≠ nd.GroupReplicationSpBasePort ∧
        nd.MultipleBasePort ≠ nd.GroupReplicationBasePort ∧
        nd.MultipleBasePort ≠ nd.MasterSlaveBasePort ∧
        nd.MultipleBasePort ≠ nd.FanInReplicationBasePort ∧
        nd.MultipleBasePort ≠ nd.AllMastersReplicationBasePort) ∧
       (nd.MultiplePrefix ≠ nd.GroupSpPrefix ∧
        nd.MultiplePrefix ≠ nd.GroupPrefix ∧
        nd.MultiplePrefix ≠ nd.MasterSlavePrefix ∧
        nd.MultiplePrefix ≠ nd.SandboxPrefix ∧
        nd.MultiplePrefix ≠ nd.FanInPrefix ∧
        nd.MultiplePrefix ≠ nd.AllMastersPrefix) ∧
       nd.SandboxHome ≠ nd.SandboxBinary) ∧
      (nd.SandboxPrefix ≠ "" ∧ nd.MasterSlavePrefix ≠ "" ∧ nd.GroupPrefix ≠ "" ∧
       nd.GroupSpPrefix ≠ "" ∧ nd.MultiplePrefix ≠ "" ∧ nd.SandboxHome ≠ "" ∧
       nd.SandboxBinary ≠ "") ∧
      env.GreaterOrEqualVersion nd.Version (env.VersionToList env.CompatibleVersion) = true := by
  rw [ValidateDefaults_fst_eq_valid, valid_iff]
  rfl

/-- C6, as stated, fails: `sharedPortRecord` is accepted although its
`MasterSlaveBasePort` and `GroupReplicationBasePort` are both 11000. -/
theorem base_ports_not_pairwise_distinct :
    (ValidateDefaults sampleEnv false sharedPortRecord).1 = true ∧
      sharedPortRecord.MasterSlaveBasePort = sharedPortRecord.GroupReplicationBasePort := by
  decide

/-- C6, amended: in every record `ValidateDefaults` accepts, `MultipleBasePort`
differs from each of the five other base ports. -/
theorem accepted_MultipleBasePort_distinct (env : Env) (fileExists : Bool)
    (nd : DbdeployerDefaults) (h : (ValidateDefaults env fileExists nd).1 = true) :
    nd.MultipleBasePort ≠ nd.MasterSlaveBasePort ∧
    nd.MultipleBasePort ≠ nd.GroupReplicationBasePort ∧
    nd.MultipleBasePort ≠ nd.GroupReplicationSpBasePort ∧
    nd.MultipleBasePort ≠ nd.FanInReplicationBasePort ∧
    nd.MultipleBasePort ≠ nd.AllMastersReplicationBasePort := by
  rw [ValidateDefaults_fst_eq_valid, valid_iff] at h
  obtain ⟨_, ⟨⟨h1, h2, h3, h4, h5⟩, _, _⟩, _, _⟩ := h
  exact ⟨h3, h2, h1, h4, h5⟩

/-- The amended C6 on the sample factory record. -/
theorem accepted_MultipleBasePort_distinct_witness :
    (ValidateDefaults sampleEnv false sampleFactory).1 = true ∧
      (sampleFactory.MultipleBasePort ≠ sampleFactory.MasterSlaveBasePort ∧
       sampleFactory.MultipleBasePort ≠ sampleFactory.GroupReplicationBasePort ∧
       sampleFactory.MultipleBasePort ≠ sampleFactory.GroupReplicationSpBasePort ∧
       sampleFactory.MultipleBasePort ≠ sampleFactory.FanInReplicationBasePort ∧
       sampleFactory.MultipleBasePort ≠ sampleFactory.AllMastersReplicationBasePort) :=
  ⟨by decide, accepted_MultipleBasePort_distinct sampleEnv false sampleFactory (by decide)⟩

/-- C7, as stated, fails: `emptyPrefixRecord` is accepted although its
`FanInPrefix` and `AllMastersPrefix` are empty. -/
theorem accepted_with_empty_prefixes :
    (ValidateDefaults sampleEnv false emptyPrefixRecord).1 = true ∧
      emptyPrefixRecord.FanInPrefix = "" ∧ emptyPrefixRecord.AllMastersPrefix = "" := by
  decide

/-- C7, amended: in every record `ValidateDefaults` accepts, the five prefixes
`SandboxPrefix`, `MasterSlavePrefix`, `GroupPrefix`, `GroupSpPrefix` and
`MultiplePrefix` are non-empty. -/
theorem accepted_checked_prefixes_nonempty (env : Env) (fileExists : Bool)
    (nd : DbdeployerDefaults) (h : (ValidateDefaults env fileExists nd).1 = true) :
    nd.SandboxPrefix ≠ "" ∧ nd.MasterSlavePrefix ≠ "" ∧ nd.GroupPrefix ≠ "" ∧
    nd.GroupSpPrefix ≠ "" ∧ nd.MultiplePrefix ≠ "" := by
  rw [ValidateDefaults_fst_eq_valid, valid_iff] at h
  obtain ⟨_, _, ⟨h1, h2, h3, h4, h5, _, _⟩, _⟩ := h
  exact ⟨h1, h2, h3, h4, h5⟩

/-- The amended C7 on the record with the two unchecked prefixes empty. -/
theorem accepted_checked_prefixes_nonempty_witness :
    (ValidateDefaults sampleEnv false emptyPrefixRecord).1 = true ∧
      (emptyPrefixRecord.SandboxPrefix ≠ "" ∧ emptyPrefixRecord.MasterSlavePrefix ≠ "" ∧
       emptyPrefixRecord.GroupPrefix ≠ "" ∧ emptyPrefixRecord.GroupSpPrefix ≠ "" ∧
       emptyPrefixRecord.MultiplePrefix ≠ "") :=
  ⟨by decide, accepted_checked_prefixes_nonempty sampleEnv false emptyPrefixRecord (by decide)⟩

theorem check_int_eq (name : String) (val min max : Int) :
    check_int name val min max =
      if (RangeCheck.mk name val min max).inRange then (true, [])
      else (false, [(RangeCheck.mk name val min max).message]) := by
  unfold check_int RangeCheck.inRange RangeCheck.message
  by_cases h : val ≥ min ∧ val ≤ max
  · simp [h]
  · simp [h]

/-- The range stage fails on the first check that is out of range and prints
the line of that check only. -/
theorem all_ints_first_failure (nd : DbdeployerDefaults) (first : RangeCheck)
    (h : (rangeChecks nd).find? (fun c => !c.inRange) = some first) :
    all_ints nd = (false, [first.message]) := by
  unfold all_ints
  simp only [check_int_eq, andAlso]
  unfold rangeChecks at h
  simp only [List.find?] at h
  repeat'
    (split at h
     · simp only [Option.some.injEq] at h
       subst h
       simp_all)
  simp at h

/-- C8, as stated, fails: in `twoLowPortsRecord` the field
`GroupReplicationBasePort` is 7, below the lower bound, and the record is
rejected, but the output holds no range message for that field: the checks stop
at `MasterSlaveBasePort`, which is out of range too. -/
theorem second_low_port_not_reported :
    twoLowPortsRecord.GroupReplicationBasePort < 11000 ∧
      (ValidateDefaults sampleEnv false twoLowPortsRecord).1 = false ∧
      "Value group-replication-base-port (7) must be between 11000 and 30000\n" ∉
        (ValidateDefaults sampleEnv false twoLowPortsRecord).2 := by
  decide

/-- C8, amended: for every record and every range check of it (a base port
against `[11000, 30000]`, `GroupPortDelta` against `[101, 299]`) whose value is
out of range, `ValidateDefaults` returns false and prints exactly one line, the
range message `Value <name> (<val>) must be between <min> and <max>` of the
first check, in the order of the source, that is out of range; `<name>` is the
name the check is called with. -/
theorem out_of_range_reports_first (env : Env) (fileExists : Bool) (nd : DbdeployerDefaults)
    (c : RangeCheck) (hc : c ∈ rangeChecks nd) (hout : c.inRange = false) :
    ∃ first, (rangeChecks nd).find? (fun c => !c.inRange) = some first ∧
      first.inRange = false ∧
      ValidateDefaults env fileExists nd = (false, [first.message]) := by
  cases hfind : (rangeChecks nd).find? (fun c => !c.inRange) with
  | none =>
    rw [List.find?_eq_none] at hfind
    have := hfind c hc
    simp [hout] at this
  | some first =>
    have hfirst := List.find?_some hfind
    refine ⟨first, rfl, by simpa using hfirst, ?_⟩
    unfold ValidateDefaults
    simp [all_ints_first_failure nd first hfind]

/-- The amended C8 on a record with two low ports: the second one is out of
range, and the line printed is the one of the first. -/
theorem out_of_range_reports_first_witness :
    (⟨"group-replication-base-port", 7, 11000, 30000⟩ : RangeCheck) ∈
        rangeChecks twoLowPortsRecord ∧
      (⟨"group-replication-base-port", 7, 11000, 30000⟩ : RangeCheck).inRange = false ∧
      ∃ first, (rangeChecks twoLowPortsRecord).find? (fun c => !c.inRange) = some first ∧
        first.inRange = false ∧
        ValidateDefaults sampleEnv false twoLowPortsRecord = (false, [first.message]) :=
  ⟨by decide, by decide,
    out_of_range_reports_first sampleEnv false twoLowPortsRecord
      ⟨"group-replication-base-port", 7, 11000, 30000⟩ (by decide) (by decide)⟩

/-! ## The update protocol -/

theorem switchLabel_frame (label value : String) (c cand : DbdeployerDefaults) (s s1 : State)
    (h : switchLabel label value c s = .ret cand s1) :
    s1 = s ∧ ∃ f, labelField label = some f ∧ parseFor f value = some (cand.get f) ∧
      ∀ g, g ≠ f → cand.get g = c.get g := by
  unfold switchLabel at h
  split at h <;>
    first
    | (simp only [Outcome.ret.injEq] at h
       obtain ⟨rfl, rfl⟩ := h
       refine ⟨rfl, _, rfl, rfl, ?_⟩
       intro g hg
       cases g <;> first | rfl | exact absurd rfl hg)
    | (unfold setInt a_to_i at h
       cases hA : Atoi value with
       | none => simp [hA] at h
       | some n =>
         simp only [hA, Outcome.ret.injEq] at h
         obtain ⟨rfl, rfl⟩ := h
         refine ⟨rfl, _, rfl, ?_, ?_⟩
         · simp [parseFor, hA, DbdeployerDefaults.get]
         · intro g hg
           cases g <;> first | rfl | exact absurd rfl hg)
    | simp at h

/-- The `switch` ends the process exactly on an unknown label and on a numeric
label whose value is not a number. -/
theorem switchLabel_isExit_iff (label value : String) (c : DbdeployerDefaults) (s : State) :
    (switchLabel label value c s).isExit = true ↔
      (label ∉ recognizedLabels ∨ (label ∈ numericLabels ∧ Atoi value = none)) := by
  unfold switchLabel
  split <;>
    first
    | (simp [Outcome.isExit, recognizedLabels, numericLabels]; done)
    | (unfold setInt a_to_i
       cases hA : Atoi value <;> simp [Outcome.isExit, recognizedLabels, numericLabels])
    | simp_all [Outcome.isExit, recognizedLabels, numericLabels]

/-- The `switch` touches neither the cache nor the file. -/
theorem switchLabel_state (label value : String) (c : DbdeployerDefaults) (s : State) :
    (switchLabel label value c s).state.currentDefaults = s.currentDefaults ∧
    (switchLabel label value c s).state.file = s.file := by
  unfold switchLabel
  split <;>
    first
    | (simp [Outcome.state, print]; done)
    | (unfold setInt a_to_i
       cases hA : Atoi value <;> simp [Outcome.state, print])

theorem switchLabel_ret_of (label value : String) (c : DbdeployerDefaults) (s : State)
    (hlabel : label ∈ recognizedLabels)
    (hparse : label ∈ numericLabels → Atoi value ≠ none) :
    ∃ cand, switchLabel label value c s = .ret cand s := by
  cases h : switchLabel label value c s with
  | ret cand s1 =>
    obtain ⟨rfl, _⟩ := switchLabel_frame label value c cand s s1 h
    exact ⟨cand, rfl⟩
  | exit s1 =>
    have hx := (switchLabel_isExit_iff label value c s).mp (by simp [h, Outcome.isExit])
    rcases hx with hx | ⟨hn, hA⟩
    · exact absurd hlabel hx
    · exact absurd hA (hparse hn)

theorem Defaults_populated (env : Env) (s : State) (h : s.currentDefaults.Version ≠ "") :
    Defaults env s = .ret s.currentDefaults s := by
  unfold Defaults
  simp [h]

theorem UpdateDefaults_populated (env : Env) (label value : String) (s : State)
    (h : s.currentDefaults.Version ≠ "") :
    UpdateDefaults env label value s =
      match switchLabel label value s.currentDefaults s with
      | .exit s2 => .exit s2
      | .ret new_defaults s2 => commitDefaults env label value new_defaults s2 := by
  unfold UpdateDefaults
  rw [Defaults_populated env s h]

theorem commitDefaults_rejected (env : Env) (label value : String) (cand : DbdeployerDefaults)
    (s : State) (h : (ValidateDefaults env (FileExists s) cand).1 = false) :
    commitDefaults env label value cand s =
      .ret () (print (printAll s (ValidateDefaults env (FileExists s) cand).2)
        ("# Updated " ++ label ++ " -> \"" ++ value ++ "\"\n")) := by
  unfold commitDefaults
  simp [h]

theorem commitDefaults_accepted (env : Env) (label value : String) (cand : DbdeployerDefaults)
    (s : State) (h : (ValidateDefaults env (FileExists s) cand).1 = true)
    (hne : cand.Version ≠ "") :
    commitDefaults env label value cand s =
      .ret () (print (WriteDefaultsFile env cand
          { printAll s (ValidateDefaults env (FileExists s) cand).2 with
            currentDefaults := cand })
        ("# Updated " ++ label ++ " -> \"" ++ value ++ "\"\n")) := by
  unfold commitDefaults
  simp [h, Defaults, hne]

/-- A record the validator accepts has a non-empty version, once the version
utility rejects the empty version. -/
theorem accepted_Version_ne (env : Env) (fileExists : Bool) (nd : DbdeployerDefaults)
    (hv : versionOk env "" = false) (h : (ValidateDefaults env fileExists nd).1 = true) :
    nd.Version ≠ "" := by
  rw [ValidateDefaults_fst_eq_valid, valid_iff] at h
  intro hempty
  rw [hempty, hv] at h
  simp at h

/-- With a file that decodes, or no file, `Defaults` returns. -/
theorem Defaults_ret_of_decodes (env : Env) (s : State)
    (hdec : ∀ blob, s.file = some blob → ∃ d, env.Unmarshal blob = .ok d) :
    ∃ d s1, Defaults env s = .ret d s1 := by
  unfold Defaults
  by_cases hver : s.currentDefaults.Version = ""
  · cases hf : s.file with
    | none => simp [hver, FileExists, hf]
    | some blob =>
      obtain ⟨d, hd⟩ := hdec blob hf
      simp [hver, FileExists, hf, ReadDefaultsFile, hd]
  · simp [hver]

/-- The tail of `UpdateDefaults` does not end the process when re-reading the
file cannot fail, or cannot happen. -/
theorem commitDefaults_not_exit (env : Env) (label value : String) (cand : DbdeployerDefaults)
    (s : State)
    (hio : versionOk env "" = false ∨ ∀ blob, s.file = some blob → ∃ d, env.Unmarshal blob = .ok d) :
    (commitDefaults env label value cand s).isExit = false := by
  cases hval : (ValidateDefaults env (FileExists s) cand).1 with
  | false => rw [commitDefaults_rejected env label value cand s hval]; rfl
  | true =>
    by_cases hne : cand.Version = ""
    · rcases hio with hv | hdec
      · exact absurd hne (accepted_Version_ne env _ cand hv hval)
      · obtain ⟨d, s1, hd⟩ := Defaults_ret_of_decodes env
          { printAll s (ValidateDefaults env (FileExists s) cand).2 with
            currentDefaults := cand } hdec
        unfold commitDefaults
        simp only [hval, if_true, hd]
        rfl
    · rw [commitDefaults_accepted env label value cand s hval hne]; rfl

/-- C2: with the cache populated, a recognized label and a value that parses
where the field is numeric, the `switch` yields the candidate, and if the
candidate fails `ValidateDefaults` then `UpdateDefaults` returns with the cached
record and the persisted file exactly as they were. -/
theorem UpdateDefaults_rejected_keeps_state (env : Env) (s : State) (label value : String)
    (hpop : s.currentDefaults.Version ≠ "")
    (hlabel : label ∈ recognizedLabels)
    (hparse : label ∈ numericLabels → Atoi value ≠ none) :
    ∃ cand, switchLabel label value s.currentDefaults s = .ret cand s ∧
      ((ValidateDefaults env (FileExists s) cand).1 = false →
        ∃ s1, UpdateDefaults env label value s = .ret () s1 ∧
          s1.currentDefaults = s.currentDefaults ∧ s1.file = s.file) := by
  obtain ⟨cand, hcand⟩ := switchLabel_ret_of label value s.currentDefaults s hlabel hparse
  refine ⟨cand, hcand, fun hbad => ?_⟩
  rw [UpdateDefaults_populated env label value s hpop, hcand]
  simp only
  rw [commitDefaults_rejected env label value cand s hbad]
  exact ⟨_, rfl, rfl, rfl⟩

set_option maxRecDepth 100000 in
/-- C2 on the factory record: asking for `multiple-base-port` 12000, the value
of `GroupReplicationBasePort`, gives a candidate that is rejected, and the cache
and the (absent) file stay as they were. -/
theorem UpdateDefaults_rejected_keeps_state_witness :
    sampleState.currentDefaults.Version ≠ "" ∧
      "multiple-base-port" ∈ recognizedLabels ∧
      ("multiple-base-port" ∈ numericLabels → Atoi "12000" ≠ none) ∧
      (ValidateDefaults sampleEnv (FileExists sampleState)
        { sampleFactory with MultipleBasePort := 12000 }).1 = false ∧
      ∃ s1, UpdateDefaults sampleEnv "multiple-base-port" "12000" sampleState = .ret () s1 ∧
        s1.currentDefaults = sampleFactory ∧ s1.file = none := by
  refine ⟨by decide, by decide, by decide, by decide, ?_⟩
  obtain ⟨cand, hcand, h⟩ :=
    UpdateDefaults_rejected_keeps_state sampleEnv sampleState "multiple-base-port" "12000"
      (by decide) (by decide) (by decide)
  have hsw : switchLabel "multiple-base-port" "12000" sampleState.currentDefaults sampleState
      = .ret { sampleFactory with MultipleBasePort := 12000 } sampleState := by decide
  rw [hsw] at hcand
  injection hcand with hcand _
  subst hcand
  exact h (by decide)

set_option maxRecDepth 100000 in
/-- C3, as stated, fails: with a version utility that accepts the empty
version, the cached factory record and the candidate with `version` set to the
empty text both pass `ValidateDefaults`, but after `UpdateDefaults` the cache
and the file hold the record read back from the file, not the candidate: the
`Defaults()` call in the commit takes the empty `Version` for an empty cache. -/
theorem UpdateDefaults_empty_version_not_committed :
    (ValidateDefaults lenientEnv (FileExists savedState) savedState.currentDefaults).1 = true ∧
      "version" ∈ recognizedLabels ∧
      switchLabel "version" "" savedState.currentDefaults savedState
        = .ret { sampleFactory with Version := "" } savedState ∧
      (ValidateDefaults lenientEnv (FileExists savedState)
        { sampleFactory with Version := "" }).1 = true ∧
      (UpdateDefaults lenientEnv "version" "" savedState).isExit = false ∧
      (UpdateDefaults lenientEnv "version" "" savedState).state.currentDefaults = sampleFactory ∧
      (UpdateDefaults lenientEnv "version" "" savedState).state.file
        = some (sampleMarshalIndent sampleFactory) ∧
      sampleFactory ≠ { sampleFactory with Version := "" } ∧
      sampleMarshalIndent sampleFactory
        ≠ sampleMarshalIndent { sampleFactory with Version := "" } := by
  decide

/-- C3, amended: when the cached record has a non-empty `Version`, the label is
recognized and the value parses where the field is numeric, the candidate is
the cached record with exactly the labelled field replaced by the (parsed)
value, every other field unchanged; and if the candidate passes
`ValidateDefaults` and has a non-empty `Version`, then after `UpdateDefaults`
the cached record is the candidate and the persisted file holds the candidate.
Both conditions on `Version` hold for every record that passes
`ValidateDefaults` when the version utility rejects the empty version. -/
theorem UpdateDefaults_accepted_replaces_one_field (env : Env) (s : State)
    (label value : String)
    (hpop : s.currentDefaults.Version ≠ "")
    (hlabel : label ∈ recognizedLabels)
    (hparse : label ∈ numericLabels → Atoi value ≠ none) :
    ∃ cand f, switchLabel label value s.currentDefaults s = .ret cand s ∧
      labelField label = some f ∧
      parseFor f value = some (cand.get f) ∧
      (∀ g, g ≠ f → cand.get g = s.currentDefaults.get g) ∧
      ((ValidateDefaults env (FileExists s) cand).1 = true → cand.Version ≠ "" →
        ∃ s1, UpdateDefaults env label value s = .ret () s1 ∧
          s1.currentDefaults = cand ∧ s1.file = some (env.MarshalIndent cand)) := by
  obtain ⟨cand, hcand⟩ := switchLabel_ret_of label value s.currentDefaults s hlabel hparse
  obtain ⟨_, f, hf, hval, hframe⟩ := switchLabel_frame label value _ cand s s hcand
  refine ⟨cand, f, hcand, hf, hval, hframe, fun hok hne => ?_⟩
  rw [UpdateDefaults_populated env label value s hpop, hcand]
  simp only
  rw [commitDefaults_accepted env label value cand s hok hne]
  exact ⟨_, rfl, rfl, rfl⟩

set_option maxRecDepth 100000 in
/-- The amended C3 on the factory record: `sandbox-home` set to `/tmp/x` changes
`SandboxHome` only, in the cache and in the file. -/
theorem UpdateDefaults_accepted_replaces_one_field_witness :
    sampleState.currentDefaults.Version ≠ "" ∧
      "sandbox-home" ∈ recognizedLabels ∧
      ("sandbox-home" ∈ numericLabels → Atoi "/tmp/x" ≠ none) ∧
      (ValidateDefaults sampleEnv (FileExists sampleState)
        { sampleFactory with SandboxHome := "/tmp/x" }).1 = true ∧
      ({ sampleFactory with SandboxHome := "/tmp/x" } : DbdeployerDefaults).Version ≠ "" ∧
      ∃ s1, UpdateDefaults sampleEnv "sandbox-home" "/tmp/x" sampleState = .ret () s1 ∧
        s1.currentDefaults = { sampleFactory with SandboxHome := "/tmp/x" } ∧
        s1.file = some (sampleMarshalIndent { sampleFactory with SandboxHome := "/tmp/x" }) := by
  refine ⟨by decide, by decide, by decide, by decide, by decide, ?_⟩
  obtain ⟨cand, f, hcand, _, _, _, h⟩ :=
    UpdateDefaults_accepted_replaces_one_field sampleEnv sampleState "sandbox-home" "/tmp/x"
      (by decide) (by decide) (by decide)
  have hsw : switchLabel "sandbox-home" "/tmp/x" sampleState.currentDefaults sampleState
      = .ret { sampleFactory with SandboxHome := "/tmp/x" } sampleState := by decide
  rw [hsw] at hcand
  injection hcand with hcand _
  subst hcand
  exact h (by decide) (by decide)

/-- C9: with the cache populated and file I/O succeeding (the file, if it is
read again, decodes; or the version utility rejects the empty version, so that
it is never read again), `UpdateDefaults(label, value)` ends the process exactly
when the label is not recognized or names a numeric field whose value is not an
integer; and then the cached record and the persisted file are as before. -/
theorem UpdateDefaults_exit_iff (env : Env) (s : State) (label value : String)
    (hpop : s.currentDefaults.Version ≠ "")
    (hio : versionOk env "" = false ∨
      ∀ blob, s.file = some blob → ∃ d, env.Unmarshal blob = .ok d) :
    ((UpdateDefaults env label value s).isExit = true ↔
      (label ∉ recognizedLabels ∨ (label ∈ numericLabels ∧ Atoi value = none))) ∧
    ((UpdateDefaults env label value s).isExit = true →
      (UpdateDefaults env label value s).state.currentDefaults = s.currentDefaults ∧
      (UpdateDefaults env label value s).state.file = s.file) := by
  have hexit := switchLabel_isExit_iff label value s.currentDefaults s
  have hstate := switchLabel_state label value s.currentDefaults s
  rw [UpdateDefaults_populated env label value s hpop]
  cases hsw : switchLabel label value s.currentDefaults s with
  | exit s2 =>
    rw [hsw] at hexit hstate
    exact ⟨⟨fun _ => hexit.mp rfl, fun _ => rfl⟩, fun _ => hstate⟩
  | ret cand s2 =>
    rw [hsw] at hexit
    obtain ⟨rfl, _⟩ := switchLabel_frame label value _ cand s s2 hsw
    have hno := commitDefaults_not_exit env label value cand s2 hio
    simp only [hno]
    constructor
    · constructor
      · intro h; cases h
      · intro h; exact (hexit.mpr h)
    · intro h; cases h

/-- C9 on the factory record: the label `sandbox-dir` is unknown. -/
theorem UpdateDefaults_exit_iff_witness :
    sampleState.currentDefaults.Version ≠ "" ∧
      (versionOk sampleEnv "" = false ∨
        ∀ blob, sampleState.file = some blob → ∃ d, sampleEnv.Unmarshal blob = .ok d) ∧
      ((UpdateDefaults sampleEnv "sandbox-dir" "/tmp/x" sampleState).isExit = true ↔
        ("sandbox-dir" ∉ recognizedLabels ∨
          ("sandbox-dir" ∈ numericLabels ∧ Atoi "/tmp/x" = none))) ∧
      ((UpdateDefaults sampleEnv "sandbox-dir" "/tmp/x" sampleState).isExit = true →
        (UpdateDefaults sampleEnv "sandbox-dir" "/tmp/x" sampleState).state.currentDefaults
            = sampleState.currentDefaults ∧
        (UpdateDefaults sampleEnv "sandbox-dir" "/tmp/x" sampleState).state.file
            = sampleState.file) :=
  ⟨by decide, Or.inl (by decide),
    UpdateDefaults_exit_iff sampleEnv sampleState "sandbox-dir" "/tmp/x" (by decide)
      (Or.inl (by decide))⟩

/-! ## The cache -/

set_option maxRecDepth 100000 in
/-- C4, on the code: the file of an older release is rejected by
`LoadConfiguration`, which returns and announces the internal defaults but
leaves the cache empty; the next `Defaults()` then reads that very file, and
the current record is the rejected one, not the factory record. -/
theorem LoadConfiguration_rejected_file_comes_back :
    (ValidateDefaults sampleEnv (FileExists oldFileState) oldVersionRecord).1 = false ∧
      (LoadConfiguration sampleEnv oldFileState).isExit = false ∧
      "Loading internal defaults\n" ∈ (LoadConfiguration sampleEnv oldFileState).state.stdout ∧
      (LoadConfiguration sampleEnv oldFileState).state.currentDefaults = zeroDefaults ∧
      (Defaults sampleEnv (LoadConfiguration sampleEnv oldFileState).state).value?
        = some oldVersionRecord ∧
      oldVersionRecord ≠ factoryDefaults sampleEnv := by
  decide

set_option maxRecDepth 100000 in
/-- C5, on the code: `Defaults()` caches what the file holds without validating
it; here a record with two base ports out of range. -/
theorem Defaults_caches_unvalidated_file :
    (Defaults sampleEnv lowPortsFileState).value? = some twoLowPortsRecord ∧
      (Defaults sampleEnv lowPortsFileState).state.currentDefaults = twoLowPortsRecord ∧
      twoLowPortsRecord.Version ≠ "" ∧
      (ValidateDefaults sampleEnv true twoLowPortsRecord).1 = false := by
  decide

set_option maxRecDepth 100000 in
/-- C10, on the code: a file that is the empty JSON object decodes to a record
with an empty `Version`, which `Defaults()` caches without validating it; the
test `Version == ""` then takes the filled cache for an empty one, so once the
file has changed a later `Defaults()` reads it again and returns another
record. -/
theorem Defaults_reads_again_after_empty_version :
    Defaults sampleEnv (initState (some emptyObject)) = .ret zeroDefaults (initState (some emptyObject)) ∧
      (Defaults sampleEnv
          { initState (some emptyObject) with file := some (sampleMarshalIndent sampleFactory) }).value?
        = some sampleFactory ∧
      zeroDefaults ≠ sampleFactory := by
  decide

/-- Once `Defaults()` has returned a record whose `Version` is not empty, that
record is the cached one, and a later `Defaults()` returns it again and
changes nothing, whatever the persisted file holds by then. -/
theorem Defaults_cached (env : Env) (s s1 : State) (d : DbdeployerDefaults)
    (h : Defaults env s = .ret d s1) (hne : d.Version ≠ "") :
    s1.currentDefaults = d ∧
      ∀ file : Option String,
        Defaults env { s1 with file := file } = .ret d { s1 with file := file } := by
  have hcur : s1.currentDefaults = d := by
    unfold Defaults at h
    split at h
    · split at h
      · split at h
        · injection h with h1 h2
          subst h1
          subst h2
          rfl
        · cases h
      · injection h with h1 h2
        subst h1
        subst h2
        rfl
    · injection h with h1 h2
      subst h1
      subst h2
      rfl
  refine ⟨hcur, fun file => ?_⟩
  have hpop : ({ s1 with file := file } : State).currentDefaults.Version ≠ "" := by
    simpa [hcur] using hne
  rw [Defaults_populated env _ hpop]
  simp [hcur]

set_option maxRecDepth 100000 in
/-- On a process start with no file the factory record is returned, and
returned again after a file has appeared. -/
theorem Defaults_cached_witness :
    Defaults sampleEnv (initState none) = .ret sampleFactory sampleState ∧
      sampleFactory.Version ≠ "" ∧
      (sampleState.currentDefaults = sampleFactory ∧
        ∀ file : Option String,
          Defaults sampleEnv { sampleState with file := file }
            = .ret sampleFactory { sampleState with file := file }) :=
  ⟨by decide, by decide,
    Defaults_cached sampleEnv (initState none) sampleState sampleFactory (by decide) (by decide)⟩

/-! ## More on the validator -/

/-- C13: a record whose six base ports all hold one and the same value is
rejected by `ValidateDefaults`, whatever its other fields are. -/
theorem equal_base_ports_rejected (env : Env) (fileExists : Bool) (nd : DbdeployerDefaults)
    (p : Int) (hsame : ∀ f ∈ basePortFields, nd.get f = .number p) :
    (ValidateDefaults env fileExists nd).1 = false := by
  rw [Bool.eq_false_iff]
  intro h
  rw [ValidateDefaults_fst_eq_valid, valid_iff] at h
  obtain ⟨_, ⟨⟨hne, _⟩, _⟩, _⟩ := h
  have h3 := hsame .GroupReplicationSpBasePort (by decide)
  have h6 := hsame .MultipleBasePort (by decide)
  simp only [DbdeployerDefaults.get, FieldValue.number.injEq] at h3 h6
  exact hne (h6.trans h3.symm)

/-- C13 on the record whose six base ports are 12000. -/
theorem equal_base_ports_rejected_witness :
    (∀ f ∈ basePortFields, samePortsRecord.get f = .number 12000) ∧
      (ValidateDefaults sampleEnv false samePortsRecord).1 = false :=
  ⟨by decide, equal_base_ports_rejected sampleEnv false samePortsRecord 12000 (by decide)⟩

theorem String_append_left_cancel (a b c : String) (h : a ++ b = a ++ c) : b = c := by
  have hd := congrArg String.data h
  rw [String.data_append, String.data_append] at hd
  exact String.ext (List.append_cancel_left hd)

theorem String_append_ne_empty (a b : String) (hb : b ≠ "") : a ++ b ≠ "" := by
  intro h
  have hd := congrArg String.data h
  rw [String.data_append] at hd
  have hnil : b.data = [] := (List.append_eq_nil.mp hd).2
  exact hb (String.ext hnil)

/-- C16: whatever the home directory is, the factory record passes
`ValidateDefaults` as soon as the version utility accepts the compatible
version against itself; its `MasterSlaveBasePort`, 11000, is the inclusive
lower bound. -/
theorem factoryDefaults_accepted (env : Env) (fileExists : Bool)
    (hv : env.GreaterOrEqualVersion env.CompatibleVersion
      (env.VersionToList env.CompatibleVersion) = true) :
    (ValidateDefaults env fileExists (factoryDefaults env)).1 = true ∧
      (factoryDefaults env).MasterSlaveBasePort = min_port_value := by
  refine ⟨?_, rfl⟩
  rw [ValidateDefaults_fst_eq_valid, valid_iff]
  refine ⟨by norm_num [InRange, factoryDefaults], ?_, ?_, hv⟩
  · refine ⟨by simp [factoryDefaults], by simp [factoryDefaults], ?_⟩
    intro h
    have := String_append_left_cancel env.home_dir _ _ h
    revert this
    decide
  · refine ⟨by simp [factoryDefaults], by simp [factoryDefaults], by simp [factoryDefaults],
      by simp [factoryDefaults], by simp [factoryDefaults], ?_, ?_⟩
    · exact String_append_ne_empty _ _ (by decide)
    · exact String_append_ne_empty _ _ (by decide)

/-- C16 with an empty home directory. -/
theorem factoryDefaults_accepted_witness :
    ({ sampleEnv with home_dir := "" } : Env).GreaterOrEqualVersion
        ({ sampleEnv with home_dir := "" } : Env).CompatibleVersion
        (({ sampleEnv with home_dir := "" } : Env).VersionToList
          ({ sampleEnv with home_dir := "" } : Env).CompatibleVersion) = true ∧
      ((ValidateDefaults { sampleEnv with home_dir := "" } false
          (factoryDefaults { sampleEnv with home_dir := "" })).1 = true ∧
        (factoryDefaults { sampleEnv with home_dir := "" }).MasterSlaveBasePort
          = min_port_value) :=
  ⟨by decide, factoryDefaults_accepted { sampleEnv with home_dir := "" } false (by decide)⟩

theorem RangeCheck_message_head (c : RangeCheck) : c.message.data.head? = some 'V' := by
  unfold RangeCheck.message
  simp only [String.data_append]
  rfl

/-- A range message is neither of the two headings of a dump. -/
theorem RangeCheck_message_ne (c : RangeCheck) :
    c.message ≠ "Conflicts found in defaults values:\n" ∧
      c.message ≠ "One or more empty values found in defaults\n" := by
  have hhead := RangeCheck_message_head c
  constructor <;>
  · intro h
    rw [h] at hhead
    revert hhead
    decide

/-- When no range check fails, the record is in range. -/
theorem InRange_of_find_none (nd : DbdeployerDefaults)
    (h : (rangeChecks nd).find? (fun c => !c.inRange) = none) : InRange nd := by
  rw [List.find?_eq_none] at h
  unfold rangeChecks at h
  simp [RangeCheck.inRange, min_port_value, max_port_value] at h
  unfold InRange
  omega

/-- C15: `ValidateDefaults` prints for the first failing stage only, in the
order range, conflict, non-emptiness, version, and nothing for a valid record.
A record out of range gets the single range message of the first failing check
and neither dump; a record in range with a conflict gets the conflict dump; a
record in range, free of conflicts, with an empty checked string gets the
empty-values dump; a record failing only the version test gets the version
line; and a record in range whose two paths are both empty gets the conflict
dump. -/
theorem ValidateDefaults_output (env : Env) (fileExists : Bool) (nd : DbdeployerDefaults) :
    ((ValidateDefaults env fileExists nd).1 = true →
        (ValidateDefaults env fileExists nd).2 = []) ∧
    (¬ InRange nd →
        ∃ first, (rangeChecks nd).find? (fun c => !c.inRange) = some first ∧
          (ValidateDefaults env fileExists nd).2 = [first.message] ∧
          "Conflicts found in defaults values:\n" ∉ (ValidateDefaults env fileExists nd).2 ∧
          "One or more empty values found in defaults\n" ∉
            (ValidateDefaults env fileExists nd).2) ∧
    (InRange nd → ¬ NoConflicts nd →
        (ValidateDefaults env fileExists nd).2 =
          "Conflicts found in defaults values:\n" :: ShowDefaults env fileExists nd) ∧
    (InRange nd → NoConflicts nd → ¬ AllStrings nd →
        (ValidateDefaults env fileExists nd).2 =
          "One or more empty values found in defaults\n" :: ShowDefaults env fileExists nd) ∧
    (InRange nd → NoConflicts nd → AllStrings nd → versionOk env nd.Version = false →
        (ValidateDefaults env fileExists nd).2 =
          ["Provided defaults are for version " ++ nd.Version ++ ". Current version is "
            ++ env.CompatibleVersion ++ "\n"]) ∧
    (InRange nd → nd.SandboxHome = "" → nd.SandboxBinary = "" →
        (ValidateDefaults env fileExists nd).2 =
          "Conflicts found in defaults values:\n" :: ShowDefaults env fileExists nd) := by
  have hints : InRange nd → all_ints nd = (true, []) := by
    intro h
    unfold InRange at h
    obtain ⟨h1, h2, h3, h4, h5, h6, h7⟩ := h
    unfold all_ints
    simp [check_int, andAlso, min_port_value, max_port_value, h1, h2, h3, h4, h5, h6, h7]
  have hconf : InRange nd → ¬ NoConflicts nd →
      (ValidateDefaults env fileExists nd).2 =
        "Conflicts found in defaults values:\n" :: ShowDefaults env fileExists nd := by
    intro hr hc
    have hc2 : no_conflicts nd = false := by
      rw [Bool.eq_false_iff]; intro h; exact hc ((no_conflicts_iff nd).mp h)
    unfold ValidateDefaults
    simp [hints hr, hc2]
  refine ⟨?_, ?_, hconf, ?_, ?_, ?_⟩
  · intro h
    have hv := h
    rw [ValidateDefaults_fst_eq_valid, valid_iff] at hv
    obtain ⟨hr, hc, hs, hver⟩ := hv
    unfold ValidateDefaults
    simp [hints hr, (no_conflicts_iff nd).mpr hc, (all_strings_iff nd).mpr hs, hver]
  · intro hr
    cases hfind : (rangeChecks nd).find? (fun c => !c.inRange) with
    | none => exact absurd (InRange_of_find_none nd hfind) hr
    | some first =>
      have hout : (ValidateDefaults env fileExists nd).2 = [first.message] := by
        unfold ValidateDefaults
        simp [all_ints_first_failure nd first hfind]
      refine ⟨first, rfl, hout, ?_, ?_⟩
      · rw [hout]
        simp only [List.mem_singleton]
        exact fun h => (RangeCheck_message_ne first).1 h.symm
      · rw [hout]
        simp only [List.mem_singleton]
        exact fun h => (RangeCheck_message_ne first).2 h.symm
  · intro hr hc hs
    have hs2 : all_strings nd = false := by
      rw [Bool.eq_false_iff]; intro h; exact hs ((all_strings_iff nd).mp h)
    unfold ValidateDefaults
    simp [hints hr, (no_conflicts_iff nd).mpr hc, hs2]
  · intro hr hc hs hver
    unfold ValidateDefaults
    simp [hints hr, (no_conflicts_iff nd).mpr hc, (all_strings_iff nd).mpr hs, hver]
  · intro hr hh hb
    apply hconf hr
    intro hc
    exact hc.2.2 (hh.trans hb.symm)

set_option maxRecDepth 100000 in
/-- C15 on three records: two ports out of range together with a conflict and
empty strings give the one range message; two empty paths give the conflict
dump; a valid record gives no output. -/
theorem ValidateDefaults_output_witness :
    (ValidateDefaults sampleEnv false
        { twoLowPortsRecord with SandboxHome := "", SandboxBinary := "", GroupPrefix := "" }).2
        = ["Value master-slave-base-port (5) must be between 11000 and 30000\n"] ∧
      (ValidateDefaults sampleEnv false emptyPathsRecord).2
        = "Conflicts found in defaults values:\n" :: ShowDefaults sampleEnv false emptyPathsRecord ∧
      (ValidateDefaults sampleEnv false sampleFactory).2 = [] := by
  refine ⟨?_, ?_, ?_⟩
  · obtain ⟨first, hfind, hout, _, _⟩ :=
      (ValidateDefaults_output sampleEnv false
        { twoLowPortsRecord with SandboxHome := "", SandboxBinary := "", GroupPrefix := "" }).2.1
        (by unfold InRange; decide)
    have hfirst : (rangeChecks
        { twoLowPortsRecord with SandboxHome := "", SandboxBinary := "", GroupPrefix := "" }).find?
        (fun c => !c.inRange) = some ⟨"master-slave-base-port", 5, 11000, 30000⟩ := by decide
    rw [hfirst] at hfind
    injection hfind with hfind
    subst hfind
    rw [hout]
    decide
  · exact (ValidateDefaults_output sampleEnv false emptyPathsRecord).2.2.2.2.2
      (by unfold InRange; decide) (by decide) (by decide)
  · exact (ValidateDefaults_output sampleEnv false sampleFactory).1 (by decide)

/-! ## More on the update protocol -/

/-- A call of `Defaults` that returns changes nothing but the cache, which then
holds the record returned. -/
theorem Defaults_ret_state (env : Env) (s s1 : State) (d : DbdeployerDefaults)
    (h : Defaults env s = .ret d s1) : s1 = { s with currentDefaults := d } := by
  unfold Defaults at h
  by_cases hver : s.currentDefaults.Version = ""
  · simp only [hver, if_true] at h
    cases hf : s.file with
    | none =>
      simp only [FileExists, hf, Option.isSome_none, Bool.false_eq_true, if_false,
        Outcome.ret.injEq] at h
      obtain ⟨rfl, rfl⟩ := h
      simp [hf]
    | some blob =>
      simp only [FileExists, hf, Option.isSome_some, if_true, ReadDefaultsFile] at h
      cases hu : env.Unmarshal blob with
      | error e => simp [hu] at h
      | ok d2 =>
        simp only [hu, Outcome.ret.injEq] at h
        obtain ⟨rfl, rfl⟩ := h
        simp [hf]
  · simp only [hver, if_false, Outcome.ret.injEq] at h
    obtain ⟨rfl, rfl⟩ := h
    rfl

/-- A call of `Defaults` that returned returns the same record when called again
with the same file, whatever has been printed meanwhile. -/
theorem Defaults_again (env : Env) (s s1 : State) (d : DbdeployerDefaults)
    (h : Defaults env s = .ret d s1) (out : List String) :
    Defaults env { s1 with stdout := out } = .ret d { s1 with stdout := out } := by
  have hs1 := Defaults_ret_state env s s1 d h
  subst hs1
  by_cases hd : d.Version = ""
  · unfold Defaults at h ⊢
    by_cases hver : s.currentDefaults.Version = ""
    · simp only [hver, if_true] at h
      simp only [hd, if_true]
      cases hf : s.file with
      | none =>
        simp only [FileExists, hf, Option.isSome_none, Bool.false_eq_true, if_false,
          Outcome.ret.injEq] at h ⊢
        obtain ⟨h1, _⟩ := h
        simp [h1]
      | some blob =>
        simp only [FileExists, hf, Option.isSome_some, if_true, ReadDefaultsFile] at h ⊢
        cases hu : env.Unmarshal blob with
        | error e => simp [hu] at h
        | ok d2 =>
          simp only [hu, Outcome.ret.injEq] at h ⊢
          obtain ⟨h1, _⟩ := h
          simp [h1]
    · simp only [hver, if_false, Outcome.ret.injEq] at h
      obtain ⟨h1, _⟩ := h
      exact absurd (h1 ▸ hd) hver
  · exact Defaults_populated env _ hd

theorem UpdateDefaults_of_Defaults (env : Env) (label value : String) (s s1 : State)
    (c : DbdeployerDefaults) (h : Defaults env s = .ret c s1) :
    UpdateDefaults env label value s =
      match switchLabel label value c s1 with
      | .exit s2 => .exit s2
      | .ret new_defaults s2 => commitDefaults env label value new_defaults s2 := by
  unfold UpdateDefaults
  rw [h]

/-- The candidate the `switch` builds does not depend on the state. -/
theorem switchLabel_ret_any (label value : String) (c cand : DbdeployerDefaults) (s s1 s2 : State)
    (h : switchLabel label value c s = .ret cand s1) :
    switchLabel label value c s2 = .ret cand s2 := by
  unfold switchLabel at h ⊢
  split at h <;>
    first
    | (simp only [Outcome.ret.injEq] at h
       obtain ⟨rfl, _⟩ := h
       rfl)
    | (unfold setInt a_to_i at h ⊢
       cases hA : Atoi value with
       | none => simp [hA] at h
       | some n =>
         simp only [hA, Outcome.ret.injEq] at h
         obtain ⟨rfl, _⟩ := h
         rfl)
    | simp at h

/-- Applying the `switch` to its own candidate gives the candidate again. -/
theorem switchLabel_idem (label value : String) (c cand : DbdeployerDefaults) (s s1 s2 : State)
    (h : switchLabel label value c s = .ret cand s1) :
    switchLabel label value cand s2 = .ret cand s2 := by
  unfold switchLabel at h ⊢
  split at h <;>
    first
    | (simp only [Outcome.ret.injEq] at h
       obtain ⟨rfl, _⟩ := h
       rfl)
    | (unfold setInt a_to_i at h ⊢
       cases hA : Atoi value with
       | none => simp [hA] at h
       | some n =>
         simp only [hA, Outcome.ret.injEq] at h
         obtain ⟨rfl, _⟩ := h
         rfl)
    | simp at h

/-- When the file decodes, the tail of `UpdateDefaults` returns, and the last
thing printed is the confirmation line. -/
theorem commitDefaults_prints_confirmation (env : Env) (label value : String)
    (cand : DbdeployerDefaults) (s : State)
    (hdec : ∀ blob, s.file = some blob → ∃ d, env.Unmarshal blob = .ok d) :
    ∃ s1, commitDefaults env label value cand s = .ret () s1 ∧
      s1.stdout.getLast? = some (confirmationLine label value) := by
  cases hval : (ValidateDefaults env (FileExists s) cand).1 with
  | false =>
    rw [commitDefaults_rejected env label value cand s hval]
    exact ⟨_, rfl, by simp [print, confirmationLine]⟩
  | true =>
    obtain ⟨d, s1, hd⟩ := Defaults_ret_of_decodes env
      { printAll s (ValidateDefaults env (FileExists s) cand).2 with
        currentDefaults := cand } hdec
    unfold commitDefaults
    simp only [hval, if_true, hd]
    exact ⟨_, rfl, by simp [print, WriteDefaultsFile, confirmationLine]⟩

set_option maxRecDepth 100000 in
/-- C12, as stated, fails: with an empty cache and a file that is not JSON,
`UpdateDefaults` with a recognized label ends the process while reading the
file and never prints the confirmation line. -/
theorem UpdateDefaults_exits_without_confirmation :
    "sandbox-home" ∈ recognizedLabels ∧
      (UpdateDefaults sampleEnv "sandbox-home" "/tmp/x" corruptFileState).isExit = true ∧
      (UpdateDefaults sampleEnv "sandbox-home" "/tmp/x" corruptFileState).state.stdout
        = ["error decoding defaults:  invalid character\n"] ∧
      confirmationLine "sandbox-home" "/tmp/x" ∉
        (UpdateDefaults sampleEnv "sandbox-home" "/tmp/x" corruptFileState).state.stdout := by
  decide

/-- C12, amended: in every state whose persisted file, if there is one,
decodes, for every recognized label and every value that parses where the
field is numeric, `UpdateDefaults(label, value)` returns and the last thing it
prints is the confirmation line naming the label and the requested value,
whether or not the candidate was committed. -/
theorem UpdateDefaults_prints_confirmation (env : Env) (s : State) (label value : String)
    (hdec : ∀ blob, s.file = some blob → ∃ d, env.Unmarshal blob = .ok d)
    (hlabel : label ∈ recognizedLabels)
    (hparse : label ∈ numericLabels → Atoi value ≠ none) :
    ∃ s1, UpdateDefaults env label value s = .ret () s1 ∧
      s1.stdout.getLast? = some ("# Updated " ++ label ++ " -> \"" ++ value ++ "\"\n") := by
  obtain ⟨c, s0, hD⟩ := Defaults_ret_of_decodes env s hdec
  have hs0 := Defaults_ret_state env s s0 c hD
  obtain ⟨cand, hcand⟩ := switchLabel_ret_of label value c s0 hlabel hparse
  rw [UpdateDefaults_of_Defaults env label value s s0 c hD, hcand]
  simp only
  have hdec0 : ∀ blob, s0.file = some blob → ∃ d, env.Unmarshal blob = .ok d := by
    subst hs0
    exact hdec
  exact commitDefaults_prints_confirmation env label value cand s0 hdec0

set_option maxRecDepth 100000 in
/-- The amended C12 on the factory record, for an update that is rejected:
`multiple-base-port` 12000. -/
theorem UpdateDefaults_prints_confirmation_witness :
    (∀ blob, sampleState.file = some blob → ∃ d, sampleEnv.Unmarshal blob = .ok d) ∧
      "multiple-base-port" ∈ recognizedLabels ∧
      ("multiple-base-port" ∈ numericLabels → Atoi "12000" ≠ none) ∧
      ∃ s1, UpdateDefaults sampleEnv "multiple-base-port" "12000" sampleState = .ret () s1 ∧
        s1.stdout.getLast? = some ("# Updated " ++ "multiple-base-port" ++ " -> \""
          ++ "12000" ++ "\"\n") :=
  ⟨fun _ h => by simp [sampleState] at h, by decide, by decide,
    UpdateDefaults_prints_confirmation sampleEnv sampleState "multiple-base-port" "12000"
      (fun _ h => by simp [sampleState] at h) (by decide) (by decide)⟩

/-- A record with a base port out of range is not in range. -/
theorem not_InRange_of_portOutOfRange (nd : DbdeployerDefaults) (f : Field)
    (hf : f ∈ basePortFields) (hout : portOutOfRange nd f = true) : ¬ InRange nd := by
  intro hin
  unfold InRange at hin
  unfold basePortFields at hf
  simp only [List.mem_cons, List.mem_singleton, List.not_mem_nil, or_false] at hf
  rcases hf with rfl | rfl | rfl | rfl | rfl | rfl <;>
    (simp only [portOutOfRange, DbdeployerDefaults.get, decide_eq_true_eq, min_port_value,
      max_port_value] at hout
     omega)

/-- C17: when the current record, as `Defaults()` returned it, has two different
base ports outside `[11000, 30000]`, then for every label and every value the
candidate of `UpdateDefaults(label, value)`, if the `switch` yields one, fails
`ValidateDefaults`, and after the call, returned or ended, the cached record
and the persisted file are as they were. -/
theorem UpdateDefaults_cannot_repair (env : Env) (s s1 : State) (c : DbdeployerDefaults)
    (label value : String) (f g : Field)
    (hcur : Defaults env s = .ret c s1)
    (hf : f ∈ basePortFields) (hg : g ∈ basePortFields) (hfg : f ≠ g)
    (hfout : portOutOfRange c f = true) (hgout : portOutOfRange c g = true) :
    (∀ cand s2, switchLabel label value c s1 = .ret cand s2 →
        (ValidateDefaults env (FileExists s2) cand).1 = false) ∧
      (UpdateDefaults env label value s1).state.currentDefaults = s1.currentDefaults ∧
      (UpdateDefaults env label value s1).state.file = s1.file := by
  have hbad : ∀ cand s2, switchLabel label value c s1 = .ret cand s2 →
      (ValidateDefaults env (FileExists s2) cand).1 = false := by
    intro cand s2 hsw
    obtain ⟨_, h, _, _, hframe⟩ := switchLabel_frame label value c cand s1 s2 hsw
    rw [Bool.eq_false_iff]
    intro hval
    rw [ValidateDefaults_fst_eq_valid, valid_iff] at hval
    by_cases hfh : f = h
    · have hgh : g ≠ h := fun hgh => hfg (hfh.trans hgh.symm)
      have : portOutOfRange cand g = true := by
        unfold portOutOfRange at hgout ⊢
        rw [hframe g hgh]
        exact hgout
      exact not_InRange_of_portOutOfRange cand g hg this hval.1
    · have : portOutOfRange cand f = true := by
        unfold portOutOfRange at hfout ⊢
        rw [hframe f hfh]
        exact hfout
      exact not_InRange_of_portOutOfRange cand f hf this hval.1
  refine ⟨hbad, ?_⟩
  have hagain : Defaults env s1 = .ret c s1 := by
    have := Defaults_again env s s1 c hcur s1.stdout
    simpa using this
  rw [UpdateDefaults_of_Defaults env label value s1 s1 c hagain]
  have hstate := switchLabel_state label value c s1
  cases hsw : switchLabel label value c s1 with
  | exit s2 =>
    rw [hsw] at hstate
    exact hstate
  | ret cand s2 =>
    obtain ⟨rfl, _⟩ := switchLabel_frame label value c cand s1 s2 hsw
    simp only
    rw [commitDefaults_rejected env label value cand s2 (hbad cand s2 hsw)]
    exact ⟨rfl, rfl⟩

set_option maxRecDepth 100000 in
/-- C17 on the record with two low base ports, read from its file: raising one
of the two with `master-slave-base-port` 11500 commits nothing. -/
theorem UpdateDefaults_cannot_repair_witness :
    Defaults sampleEnv lowPortsFileState = .ret twoLowPortsRecord lowPortsLoadedState ∧
      Field.MasterSlaveBasePort ∈ basePortFields ∧
      Field.GroupReplicationBasePort ∈ basePortFields ∧
      Field.MasterSlaveBasePort ≠ Field.GroupReplicationBasePort ∧
      portOutOfRange twoLowPortsRecord .MasterSlaveBasePort = true ∧
      portOutOfRange twoLowPortsRecord .GroupReplicationBasePort = true ∧
      ((∀ cand s2, switchLabel "master-slave-base-port" "11500" twoLowPortsRecord
            lowPortsLoadedState = .ret cand s2 →
          (ValidateDefaults sampleEnv (FileExists s2) cand).1 = false) ∧
        (UpdateDefaults sampleEnv "master-slave-base-port" "11500"
            lowPortsLoadedState).state.currentDefaults = lowPortsLoadedState.currentDefaults ∧
        (UpdateDefaults sampleEnv "master-slave-base-port" "11500"
            lowPortsLoadedState).state.file = lowPortsLoadedState.file) :=
  ⟨by decide, by decide, by decide, by decide, by decide, by decide,
    UpdateDefaults_cannot_repair sampleEnv lowPortsFileState lowPortsLoadedState
      twoLowPortsRecord "master-slave-base-port" "11500" .MasterSlaveBasePort
      .GroupReplicationBasePort (by decide) (by decide) (by decide) (by decide) (by decide)
      (by decide)⟩

/-- C18: when the version utility rejects the empty version, two calls of
`UpdateDefaults(label, value)` in a row leave the cached record and the
persisted file as one call does, from every state and for every label and
value; a call that ends the process is not followed by a second one. -/
theorem UpdateDefaults_idempotent (env : Env) (s : State) (label value : String)
    (hv : versionOk env "" = false) :
    (UpdateDefaultsTwice env label value s).state.currentDefaults
        = (UpdateDefaults env label value s).state.currentDefaults ∧
      (UpdateDefaultsTwice env label value s).state.file
        = (UpdateDefaults env label value s).state.file ∧
      (UpdateDefaultsTwice env label value s).isExit
        = (UpdateDefaults env label value s).isExit := by
  unfold UpdateDefaultsTwice
  cases hD : Defaults env s with
  | exit s0 =>
    have hU : UpdateDefaults env label value s = .exit s0 := by
      unfold UpdateDefaults
      rw [hD]
    rw [hU]
    exact ⟨rfl, rfl, rfl⟩
  | ret c s0 =>
    rw [UpdateDefaults_of_Defaults env label value s s0 c hD]
    cases hsw : switchLabel label value c s0 with
    | exit s2 => exact ⟨rfl, rfl, rfl⟩
    | ret cand s2 =>
      obtain ⟨rfl, _⟩ := switchLabel_frame label value c cand s0 s2 hsw
      simp only
      cases hval : (ValidateDefaults env (FileExists s2) cand).1 with
      | false =>
        rw [commitDefaults_rejected env label value cand s2 hval]
        simp only
        have hagain : Defaults env (print (printAll s2 (ValidateDefaults env (FileExists s2) cand).2)
              ("# Updated " ++ label ++ " -> \"" ++ value ++ "\"\n"))
            = .ret c (print (printAll s2 (ValidateDefaults env (FileExists s2) cand).2)
              ("# Updated " ++ label ++ " -> \"" ++ value ++ "\"\n")) :=
          Defaults_again env s s2 c hD
            ((s2.stdout ++ (ValidateDefaults env (FileExists s2) cand).2)
              ++ ["# Updated " ++ label ++ " -> \"" ++ value ++ "\"\n"])
        rw [UpdateDefaults_of_Defaults env label value _ _ c hagain,
          switchLabel_ret_any label value c cand s2 s2 _ hsw]
        simp only
        have hval1 : (ValidateDefaults env
            (FileExists (print (printAll s2 (ValidateDefaults env (FileExists s2) cand).2)
              ("# Updated " ++ label ++ " -> \"" ++ value ++ "\"\n"))) cand).1 = false := hval
        rw [commitDefaults_rejected env label value cand _ hval1]
        exact ⟨rfl, rfl, rfl⟩
      | true =>
        have hne := accepted_Version_ne env _ cand hv hval
        rw [commitDefaults_accepted env label value cand s2 hval hne]
        simp only
        have hpop : (print (WriteDefaultsFile env cand
            { printAll s2 (ValidateDefaults env (FileExists s2) cand).2 with
              currentDefaults := cand })
            ("# Updated " ++ label ++ " -> \"" ++ value ++ "\"\n")).currentDefaults.Version
              ≠ "" := hne
        rw [UpdateDefaults_of_Defaults env label value _ _ cand (Defaults_populated env _ hpop),
          switchLabel_idem label value c cand s2 s2 _ hsw]
        simp only
        have hval2 : (ValidateDefaults env (FileExists (print (WriteDefaultsFile env cand
            { printAll s2 (ValidateDefaults env (FileExists s2) cand).2 with
              currentDefaults := cand })
            ("# Updated " ++ label ++ " -> \"" ++ value ++ "\"\n"))) cand).1 = true := by
          rw [ValidateDefaults_fst_eq_valid]
          rw [ValidateDefaults_fst_eq_valid] at hval
          exact hval
        rw [commitDefaults_accepted env label value cand _ hval2 hne]
        exact ⟨rfl, rfl, rfl⟩

set_option maxRecDepth 100000 in
/-- C18 from a process start with no file: `sandbox-home` set to `/tmp/x` twice
leaves the cache and the file as setting it once does. -/
theorem UpdateDefaults_idempotent_witness :
    versionOk sampleEnv "" = false ∧
      (UpdateDefaults sampleEnv "sandbox-home" "/tmp/x" (initState none)).state.currentDefaults
        = { sampleFactory with SandboxHome := "/tmp/x" } ∧
      ((UpdateDefaultsTwice sampleEnv "sandbox-home" "/tmp/x" (initState none)).state.currentDefaults
          = (UpdateDefaults sampleEnv "sandbox-home" "/tmp/x"
              (initState none)).state.currentDefaults ∧
        (UpdateDefaultsTwice sampleEnv "sandbox-home" "/tmp/x" (initState none)).state.file
          = (UpdateDefaults sampleEnv "sandbox-home" "/tmp/x" (initState none)).state.file ∧
        (UpdateDefaultsTwice sampleEnv "sandbox-home" "/tmp/x" (initState none)).isExit
          = (UpdateDefaults sampleEnv "sandbox-home" "/tmp/x" (initState none)).isExit) :=
  ⟨by decide, by decide,
    UpdateDefaults_idempotent sampleEnv (initState none) "sandbox-home" "/tmp/x" (by decide)⟩

/-! ## Labels and JSON keys -/

theorem labelField_updateLabel (f : Field) : labelField (updateLabel f) = some f := by
  cases f <;> rfl

theorem mem_recognizedLabels_iff (label : String) :
    label ∈ recognizedLabels ↔ ∃ f, updateLabel f = label := by
  constructor
  · intro h
    unfold recognizedLabels at h
    simp only [List.mem_cons, List.mem_singleton, List.not_mem_nil, or_false] at h
    rcases h with h | h | h | h | h | h | h | h | h | h | h | h | h | h | h | h | h <;>
      subst h
    · exact ⟨.Version, rfl⟩
    · exact ⟨.SandboxHome, rfl⟩
    · exact ⟨.SandboxBinary, rfl⟩
    · exact ⟨.MasterSlaveBasePort, rfl⟩
    · exact ⟨.GroupReplicationBasePort, rfl⟩
    · exact ⟨.GroupReplicationSpBasePort, rfl⟩
    · exact ⟨.MultipleBasePort, rfl⟩
    · exact ⟨.FanInReplicationBasePort, rfl⟩
    · exact ⟨.AllMastersReplicationBasePort, rfl⟩
    · exact ⟨.GroupPortDelta, rfl⟩
    · exact ⟨.SandboxPrefix, rfl⟩
    · exact ⟨.MasterSlavePrefix, rfl⟩
    · exact ⟨.GroupPrefix, rfl⟩
    · exact ⟨.GroupSpPrefix, rfl⟩
    · exact ⟨.MultiplePrefix, rfl⟩
    · exact ⟨.FanInPrefix, rfl⟩
    · exact ⟨.AllMastersPrefix, rfl⟩
  · rintro ⟨f, rfl⟩
    cases f <;> decide

/-- On a label it has no case for, the `switch` prints the label as
unrecognized and ends the process. -/
theorem switchLabel_unrecognized (label value : String) (c : DbdeployerDefaults) (s : State)
    (h : label ∉ recognizedLabels) :
    switchLabel label value c s = .exit (print s ("Unrecognized label " ++ label ++ "\n")) := by
  unfold switchLabel
  split <;>
    first
    | rfl
    | exact absurd (by decide) h

/-- A numeric field takes a value only when `strconv.Atoi` reads a number. -/
theorem parse_of_parseFor (f : Field) (value : String) (v : FieldValue)
    (h : parseFor f value = some v) : updateLabel f ∈ numericLabels → Atoi value ≠ none := by
  intro hnum hA
  cases f <;>
    first
    | (revert hnum; decide)
    | simp [parseFor, hA] at h

set_option maxRecDepth 100000 in
/-- C11, as stated, fails: the JSON keys of `FanInReplicationBasePort` and
`AllMastersReplicationBasePort` are rejected by `UpdateDefaults` as
unrecognized labels. -/
theorem json_keys_rejected_as_labels :
    jsonKey .FanInReplicationBasePort = "fan-in-replication-base-port" ∧
      UpdateDefaults sampleEnv "fan-in-replication-base-port" "14500" sampleState
        = .exit (print sampleState "Unrecognized label fan-in-replication-base-port\n") ∧
      jsonKey .AllMastersReplicationBasePort = "all-masters-replication-base-port" ∧
      UpdateDefaults sampleEnv "all-masters-replication-base-port" "15500" sampleState
        = .exit (print sampleState "Unrecognized label all-masters-replication-base-port\n") := by
  decide

/-- C11, amended: the labels `UpdateDefaults` recognizes are exactly the
seventeen labels of `updateLabel`, one per field of the record; the label of a
field is its JSON key, except for `FanInReplicationBasePort` and
`AllMastersReplicationBasePort`, whose labels are `fan-in-base-port` and
`all-masters-base-port` and whose JSON keys are not recognized; a label that
is not recognized ends the process with the unrecognized-label line; and with
the label of a field and a value that parses for it, the `switch` of
`UpdateDefaults` sets that field to the value and leaves every other field
alone. -/
theorem recognized_labels_per_field (env : Env) (label value : String) (s : State) :
    (label ∈ recognizedLabels ↔ ∃ f, updateLabel f = label) ∧
    (∀ f g, updateLabel f = updateLabel g → f = g) ∧
    (∀ f, updateLabel f = jsonKey f ↔
      (f ≠ .FanInReplicationBasePort ∧ f ≠ .AllMastersReplicationBasePort)) ∧
    (∀ f, jsonKey f ∈ recognizedLabels ↔
      (f ≠ .FanInReplicationBasePort ∧ f ≠ .AllMastersReplicationBasePort)) ∧
    (s.currentDefaults.Version ≠ "" → label ∉ recognizedLabels →
      UpdateDefaults env label value s
        = .exit (print s ("Unrecognized label " ++ label ++ "\n"))) ∧
    (∀ f v, parseFor f value = some v →
      ∃ cand, switchLabel (updateLabel f) value s.currentDefaults s = .ret cand s ∧
        cand.get f = v ∧ ∀ g, g ≠ f → cand.get g = s.currentDefaults.get g) := by
  refine ⟨mem_recognizedLabels_iff label, ?_, ?_, ?_, ?_, ?_⟩
  · intro f g h
    have hf := labelField_updateLabel f
    rw [h, labelField_updateLabel g] at hf
    injection hf with hf
    exact hf.symm
  · intro f
    cases f <;> decide
  · intro f
    cases f <;> decide
  · intro hpop hlabel
    rw [UpdateDefaults_populated env label value s hpop,
      switchLabel_unrecognized label value _ s hlabel]
  · intro f v hparse
    have hlabel : updateLabel f ∈ recognizedLabels :=
      (mem_recognizedLabels_iff _).mpr ⟨f, rfl⟩
    obtain ⟨cand, hcand⟩ := switchLabel_ret_of (updateLabel f) value s.currentDefaults s hlabel
      (parse_of_parseFor f value v hparse)
    obtain ⟨_, f2, hf2, hval, hframe⟩ :=
      switchLabel_frame (updateLabel f) value _ cand s s hcand
    rw [labelField_updateLabel f] at hf2
    injection hf2 with hf2
    subst hf2
    refine ⟨cand, hcand, ?_, hframe⟩
    rw [hparse] at hval
    injection hval with hval
    exact hval.symm

set_option maxRecDepth 100000 in
/-- The amended C11 on the factory record: the label `fan-in-base-port` sets
`FanInReplicationBasePort`. -/
theorem recognized_labels_per_field_witness :
    parseFor .FanInReplicationBasePort "14500" = some (.number 14500) ∧
      "fan-in-base-port" ∈ recognizedLabels ∧
      ∃ cand, switchLabel "fan-in-base-port" "14500" sampleState.currentDefaults sampleState
          = .ret cand sampleState ∧
        cand.get .FanInReplicationBasePort = .number 14500 ∧
        ∀ g, g ≠ .FanInReplicationBasePort → cand.get g = sampleState.currentDefaults.get g :=
  ⟨by decide, by decide,
    (recognized_labels_per_field sampleEnv "fan-in-base-port" "14500" sampleState).2.2.2.2.2
      .FanInReplicationBasePort (.number 14500) (by decide)⟩

/-! ## Persistence -/

/-- Reading the file just written decodes the very text `json.MarshalIndent`
made of the record: what comes back is whatever `json.Unmarshal` makes of
that text. -/
theorem ReadDefaultsFile_WriteDefaultsFile (env : Env) (d : DbdeployerDefaults) (s : State) :
    ReadDefaultsFile env (WriteDefaultsFile env d s) =
      match env.Unmarshal (env.MarshalIndent d) with
      | .ok defaults => .ret defaults (WriteDefaultsFile env d s)
      | .error err =>
        .exit (print (WriteDefaultsFile env d s) ("error decoding defaults:  " ++ err ++ "\n")) := by
  unfold ReadDefaultsFile WriteDefaultsFile
  rfl

end Dbdeployer
